import Mathlib

/-!
# RiftDistortionHelper (source/common/Rift.cpp)

A shallow embedding of the lens-distortion helper of `Rift.cpp`: the
coordinate conversions, the polynomial scale, the bisection inverse, and the
two generators (lookup texture and distortion mesh).

Conventions of the embedding.

* `double` and `float` values are elements of an arbitrary linearly ordered
  field `F`; rounding is not modelled.  Instantiating `F` with `ℚ` makes every
  definition executable.
* `glm::length` is `sqrt (dot v v)`.  The square root is a library function, so
  it is a parameter `sqrt : F → F` of the functions that use it.
* `glm::epsilonEqual a b e` is `|a - b| < e`.
* `while (true)` is a recursion on a fuel counter; `none` means that the loop
  has not left within that many iterations.
* `unsigned int` expressions are natural numbers reduced modulo `2 ^ 32`,
  `size_t` expressions modulo `2 ^ 64`.
* A division by zero gives an IEEE infinity or NaN in the source and `0` in a
  field; the theorems below are stated for non-zero divisors only (`eyeAspect`
  different from `0`, texture sizes at least `1`, mesh resolutions at least `2`).
* The upload of the generated data to OpenGL is not part of the embedding:
  `createLookupTexture` and `createDistortionMesh` stand for the host-side
  computation of the buffers they pass on.
* `createLookupTexture` is the trace of the allocation and of the stores;
  `LookupData.buffer` is the array they produce, defined only when every store
  falls inside the allocation.
-/

namespace Rift

/-- The `StereoEye` discriminant. -/
inductive StereoEye where
  | LEFT
  | RIGHT
  deriving DecidableEq, Repr

/-- A `glm::dvec2`. -/
structure DVec2 (F : Type) where
  x : F
  y : F
  deriving DecidableEq, Repr

/-- A `glm::vec4`. -/
structure Vec4 (F : Type) where
  x : F
  y : F
  z : F
  w : F
  deriving DecidableEq, Repr

/-- A `glm::uvec2`; both components are `unsigned int`. -/
structure UVec2 where
  x : Nat
  y : Nat
  deriving DecidableEq, Repr

/-- Number of values of an `unsigned int` / `GLuint`. -/
def UINT_MOD : Nat := 2 ^ 32

/-- The constant `UINT_MAX`. -/
def UINT_MAX : Nat := 2 ^ 32 - 1

/-- Number of values of a `size_t`. -/
def SIZE_MOD : Nat := 2 ^ 64

/-- The data members of `RiftDistortionHelper`: `K[0..3]`, `lensOffset`,
`eyeAspect`. -/
structure RiftDistortionHelper (F : Type) where
  K0 : F
  K1 : F
  K2 : F
  K3 : F
  lensOffset : F
  eyeAspect : F

section Core

variable {F : Type} [LinearOrderedField F]

/-- Squared length `glm::length2 v = dot v v`. -/
def length2 (v : DVec2 F) : F := v.x * v.x + v.y * v.y

/-- Length `glm::length v = sqrt (dot v v)`, for the library square root `sqrt`. -/
def length (sqrt : F → F) (v : DVec2 F) : F := sqrt (v.x * v.x + v.y * v.y)

/-- Comparison `glm::epsilonEqual x y epsilon = abs (x - y) < epsilon`. -/
def epsilonEqual (x y epsilon : F) : Bool := decide (|x - y| < epsilon)

/-- The tolerance literal `1e-6`. -/
def tolerance : F := 1 / 1000000

/-- Source: `(eye == LEFT) ? -lensOffset : lensOffset`. -/
def getLensOffset (h : RiftDistortionHelper F) (eye : StereoEye) : F :=
  if eye = StereoEye.LEFT then -h.lensOffset else h.lensOffset

/-- Source: `(v + 1.0) / 2.0`. -/
def screenToTexture (v : DVec2 F) : DVec2 F :=
  ⟨(v.x + 1) / 2, (v.y + 1) / 2⟩

/-- Source: `(v * 2.0) - 1.0`. -/
def textureToScreen (v : DVec2 F) : DVec2 F :=
  ⟨v.x * 2 - 1, v.y * 2 - 1⟩

/-- Source: `dvec2(v.x + getLensOffset(eye), v.y / eyeAspect)`. -/
def screenToRift (h : RiftDistortionHelper F) (v : DVec2 F) (eye : StereoEye) : DVec2 F :=
  ⟨v.x + getLensOffset h eye, v.y / h.eyeAspect⟩

/-- Source: `dvec2(v.x - getLensOffset(eye), v.y * eyeAspect)`. -/
def riftToScreen (h : RiftDistortionHelper F) (v : DVec2 F) (eye : StereoEye) : DVec2 F :=
  ⟨v.x - getLensOffset h eye, v.y * h.eyeAspect⟩

/-- Source: `screenToRift(textureToScreen(v), eye)`. -/
def textureToRift (h : RiftDistortionHelper F) (v : DVec2 F) (eye : StereoEye) : DVec2 F :=
  screenToRift h (textureToScreen v) eye

/-- Source: `screenToTexture(riftToScreen(v, eye))`. -/
def riftToTexture (h : RiftDistortionHelper F) (v : DVec2 F) (eye : StereoEye) : DVec2 F :=
  screenToTexture (riftToScreen h v eye)

/-- Source: `K[0] + rSq * (K[1] + rSq * (K[2] + rSq * K[3]))`. -/
def getUndistortionScaleForRadiusSquared (h : RiftDistortionHelper F) (rSq : F) : F :=
  h.K0 + rSq * (h.K1 + rSq * (h.K2 + rSq * h.K3))

/-- Source: `getUndistortionScaleForRadiusSquared(glm::length2(v))`. -/
def getUndistortionScale (h : RiftDistortionHelper F) (v : DVec2 F) : F :=
  getUndistortionScaleForRadiusSquared h (length2 v)

/-- Source: `getUndistortionScaleForRadiusSquared(r * r)`. -/
def getUndistortionScaleForRadius (h : RiftDistortionHelper F) (r : F) : F :=
  getUndistortionScaleForRadiusSquared h (r * r)

/-- Source: `v * getUndistortionScale(v)`. -/
def getUndistortedPosition (h : RiftDistortionHelper F) (v : DVec2 F) : DVec2 F :=
  ⟨v.x * getUndistortionScale h v, v.y * getUndistortionScale h v⟩

/-- Source: `riftToTexture(getUndistortedPosition(textureToRift(texCoord, eye)), eye)`. -/
def getTextureLookupValue (h : RiftDistortionHelper F) (texCoord : DVec2 F)
    (eye : StereoEye) : DVec2 F :=
  let riftPos := textureToRift h texCoord eye
  let distorted := getUndistortedPosition h riftPos
  let result := riftToTexture h distorted eye
  result

/-- The `while (true)` loop of `getDistortionScaleForRadius`, started with the
bracket `min`, `max`; one unit of fuel is one evaluation of the loop body. -/
def bisect (h : RiftDistortionHelper F) (rTarget : F) : Nat → F → F → Option F
  | 0, _, _ => none
  | fuel + 1, min, max =>
    let rSource := ((max - min) / 2) + min
    let distortionScale := getUndistortionScaleForRadiusSquared h (rSource * rSource)
    let rResult := distortionScale * rSource
    if epsilonEqual rResult rTarget tolerance then
      some (1 / distortionScale)
    else if rResult < rTarget then
      bisect h rTarget fuel rSource max
    else
      bisect h rTarget fuel min rSource

/-- Source: `max = rTarget * 2; min = 0;` followed by the loop. -/
def getDistortionScaleForRadius (fuel : Nat) (h : RiftDistortionHelper F) (rTarget : F) :
    Option F :=
  bisect h rTarget fuel 0 (rTarget * 2)

/-- Source: `riftToScreen(rift * getDistortionScaleForRadius(length(rift)), eye)`
with `rift = screenToRift(source, eye)`. -/
def findDistortedVertexPosition (sqrt : F → F) (fuel : Nat) (h : RiftDistortionHelper F)
    (source : DVec2 F) (eye : StereoEye) : Option (DVec2 F) :=
  let rift := screenToRift h source eye
  let rTarget := length sqrt rift
  match getDistortionScaleForRadius fuel h rTarget with
  | none => none
  | some distortionScale =>
    let result : DVec2 F := ⟨rift.x * distortionScale, rift.y * distortionScale⟩
    let resultScreen := riftToScreen h result eye
    some resultScreen

/-- A counted `for (size_t i = 0; i < n; ++i)` loop threading the state `s`. -/
def forLoop {σ : Type} (n : Nat) (body : Nat → σ → σ) (s : σ) : σ :=
  (List.range n).foldl (fun acc i => body i acc) s

/-- A counted `for` loop whose body may fail to finish (it calls the bisection). -/
def forLoopM {σ : Type} (n : Nat) (body : Nat → σ → Option σ) (s : σ) : Option σ :=
  (List.range n).foldlM (fun acc i => body i acc) s

/-- The host buffer of `createLookupTexture`: `size` is `lookupDataSize`, the
length of the `new float[...]` array, and `writes` lists the stores
`lookupData[offset] = value` in program order. -/
structure LookupData (F : Type) where
  size : Nat
  writes : List (Nat × F)

/-- What `createDistortionMesh` hands to `gl::Geometry`: the `vec4` vertex
stream (position, then texture coordinate, per vertex) and the index stream. -/
structure Geometry (F : Type) where
  vertexData : List (Vec4 F)
  indexData : List Nat

/-- Source: `size_t lookupDataSize = lookupTextureSize.x * lookupTextureSize.y * 2`,
an `unsigned int` product. -/
def lookupDataSize (lookupTextureSize : UVec2) : Nat :=
  ((lookupTextureSize.x * lookupTextureSize.y) % UINT_MOD * 2) % UINT_MOD

/-- Source: `size_t rowSize = lookupTextureSize.x * 2`, an `unsigned int` product. -/
def rowSize (lookupTextureSize : UVec2) : Nat :=
  (lookupTextureSize.x * 2) % UINT_MOD

/-- Source: `size_t offset = (y * rowSize) + (x * 2)`. -/
def texelOffset (lookupTextureSize : UVec2) (x y : Nat) : Nat :=
  ((y * rowSize lookupTextureSize) % SIZE_MOD + (x * 2) % SIZE_MOD) % SIZE_MOD

/-- Source: `(dvec2(x, y) / dvec2(lookupTextureSize)) + texCenterOffset` with
`texCenterOffset = dvec2(0.5f) / dvec2(lookupTextureSize)`. -/
def texelTexCoord (lookupTextureSize : UVec2) (x y : Nat) : DVec2 F :=
  let texCenterOffset : DVec2 F :=
    ⟨(1 / 2) / (lookupTextureSize.x : F), (1 / 2) / (lookupTextureSize.y : F)⟩
  ⟨(x : F) / (lookupTextureSize.x : F) + texCenterOffset.x,
   (y : F) / (lookupTextureSize.y : F) + texCenterOffset.y⟩

/-- The body of the inner loop of `createLookupTexture`: the two stores for
texel `(x, y)`. -/
def lookupTexel (h : RiftDistortionHelper F) (lookupTextureSize : UVec2) (eye : StereoEye)
    (x y : Nat) : List (Nat × F) :=
  let offset := texelOffset lookupTextureSize x y
  let texCoord : DVec2 F := texelTexCoord lookupTextureSize x y
  let riftCoord := textureToRift h texCoord eye
  let undistortedRiftCoord := getUndistortedPosition h riftCoord
  let undistortedTexCoord := riftToTexture h undistortedRiftCoord eye
  [(offset, undistortedTexCoord.x), ((offset + 1) % SIZE_MOD, undistortedTexCoord.y)]

/-- The host-side part of `createLookupTexture`: allocation and the two nested
loops filling `lookupData`. -/
def createLookupTexture (h : RiftDistortionHelper F) (lookupTextureSize : UVec2)
    (eye : StereoEye) : LookupData F :=
  { size := lookupDataSize lookupTextureSize
    writes :=
      forLoop lookupTextureSize.y (fun y acc =>
        forLoop lookupTextureSize.x (fun x acc =>
          acc ++ lookupTexel h lookupTextureSize eye x y) acc) [] }

/-- One store `lookupData[offset] = value` into the array `buf`; a cell that has
not been stored to is `none`. A store outside the array is undefined behaviour
in the source: the result is `none`. -/
def storeFloat (buf : List (Option F)) (w : Nat × F) : Option (List (Option F)) :=
  if w.1 < buf.length then some (buf.set w.1 (some w.2)) else none

/-- The array `lookupData` that `createLookupTexture` passes to `image2d`: the
stores applied, in program order, to the `new float[size]` array; `none` when
one of them falls outside the array. -/
def LookupData.buffer (d : LookupData F) : Option (List (Option F)) :=
  d.writes.foldlM storeFloat (List.replicate d.size none)

/-- Source: `distortionMeshResolution - glm::uvec2(1)`, one `unsigned int`
component. -/
def usub1 (n : Nat) : Nat := (n + UINT_MOD - 1) % UINT_MOD

/-- Source: `dvec2(x, y) / dvec2(distortionMeshResolution - uvec2(1))`. -/
def meshTexCoord (distortionMeshResolution : UVec2) (x y : Nat) : DVec2 F :=
  ⟨(x : F) / ((usub1 distortionMeshResolution.x : Nat) : F),
   (y : F) / ((usub1 distortionMeshResolution.y : Nat) : F)⟩

/-- The body of the inner vertex loop of `createDistortionMesh`: the two
`vec4`s pushed for grid cell `(x, y)`. -/
def meshVertex (sqrt : F → F) (fuel : Nat) (h : RiftDistortionHelper F)
    (distortionMeshResolution : UVec2) (eye : StereoEye) (x y : Nat) :
    Option (List (Vec4 F)) :=
  let texCoord : DVec2 F := meshTexCoord distortionMeshResolution x y
  let vertexPos : DVec2 F := ⟨texCoord.x * 2 - 1, texCoord.y * 2 - 1⟩
  match findDistortedVertexPosition sqrt fuel h vertexPos eye with
  | none => none
  | some vertexPos =>
    some [⟨vertexPos.x, vertexPos.y, 0, 1⟩, ⟨texCoord.x, texCoord.y, 0, 1⟩]

/-- The vertex loops of `createDistortionMesh`. -/
def meshVertexData (sqrt : F → F) (fuel : Nat) (h : RiftDistortionHelper F)
    (distortionMeshResolution : UVec2) (eye : StereoEye) : Option (List (Vec4 F)) :=
  forLoopM distortionMeshResolution.y (fun y acc =>
    forLoopM distortionMeshResolution.x (fun x acc =>
      (meshVertex sqrt fuel h distortionMeshResolution eye x y).map
        (fun vs => acc ++ vs)) acc) []

/-- The body of the outer index loop of `createDistortionMesh` for row `y`:
`size_t` row starts, indices narrowed to `GLuint`, then `UINT_MAX`. -/
def meshIndexRow (distortionMeshResolution : UVec2) (y : Nat) (acc : List Nat) : List Nat :=
  let rowStart := (y * distortionMeshResolution.x) % SIZE_MOD
  let nextRowStart := (rowStart + distortionMeshResolution.x) % SIZE_MOD
  let acc := forLoop distortionMeshResolution.x (fun x acc =>
    (acc ++ [((nextRowStart + x) % SIZE_MOD) % UINT_MOD]) ++
      [((rowStart + x) % SIZE_MOD) % UINT_MOD]) acc
  acc ++ [UINT_MAX]

/-- The index loops of `createDistortionMesh`; the bound of the outer loop is
the `unsigned int` value `distortionMeshResolution.y - 1`. -/
def meshIndexData (distortionMeshResolution : UVec2) : List Nat :=
  forLoop (usub1 distortionMeshResolution.y) (meshIndexRow distortionMeshResolution) []

/-- The host-side part of `createDistortionMesh`: the vertex stream and the
index stream passed to `gl::Geometry`. -/
def createDistortionMesh (sqrt : F → F) (fuel : Nat) (h : RiftDistortionHelper F)
    (distortionMeshResolution : UVec2) (eye : StereoEye) : Option (Geometry F) :=
  match meshVertexData sqrt fuel h distortionMeshResolution eye with
  | none => none
  | some vertexData =>
    some { vertexData := vertexData, indexData := meshIndexData distortionMeshResolution }

/-- The index stream in the words of the specification: for each row except the
last, the pairs (next-row index, current-row index) of every column, followed by
the restart sentinel. -/
def specIndexData (columns rows : Nat) : List Nat :=
  (List.range (rows - 1)).flatMap fun y =>
    ((List.range columns).flatMap fun x => [(y + 1) * columns + x, y * columns + x])
      ++ [UINT_MAX]

/-- The stores of the lookup texture in the words of the specification: row-major,
two channels per texel, holding `getTextureLookupValue` at the pixel centre. -/
def specLookupWrites (h : RiftDistortionHelper F) (width height : Nat) (eye : StereoEye) :
    List (Nat × F) :=
  (List.range height).flatMap fun y =>
    (List.range width).flatMap fun x =>
      [(2 * (y * width + x),
        (getTextureLookupValue h
          ⟨((x : F) + 1 / 2) / (width : F), ((y : F) + 1 / 2) / (height : F)⟩ eye).x),
       (2 * (y * width + x) + 1,
        (getTextureLookupValue h
          ⟨((x : F) + 1 / 2) / (width : F), ((y : F) + 1 / 2) / (height : F)⟩ eye).y)]

/-- The radius `rResult = distortionScale * rSource` that the loop of
`getDistortionScaleForRadius` compares with `rTarget`, for the midpoint `rSource`. -/
def resultRadius (h : RiftDistortionHelper F) (rSource : F) : F :=
  getUndistortionScaleForRadiusSquared h (rSource * rSource) * rSource

/-- The bracket `(min, max)` after one pass through the loop body that does not
`break`: `min = rSource` if `rResult < rTarget`, else `max = rSource`. -/
def bisectStep (h : RiftDistortionHelper F) (rTarget : F) (b : F × F) : F × F :=
  let rSource := ((b.2 - b.1) / 2) + b.1
  if resultRadius h rSource < rTarget then (rSource, b.2) else (b.1, rSource)

/-- The bracket `(min, max)` of `getDistortionScaleForRadius` after `n` passes
through the loop body, starting from `min = 0`, `max = rTarget * 2`. -/
def bracketAfter (h : RiftDistortionHelper F) (rTarget : F) (n : Nat) : F × F :=
  (bisectStep h rTarget)^[n] (0, rTarget * 2)

/-- A bound on the slope of `r ↦ r * forwardScale (r ^ 2)` on `[0, R]`. -/
def slopeBound (h : RiftDistortionHelper F) (R : F) : F :=
  h.K0 + 3 * h.K1 * R ^ 2 + 5 * h.K2 * R ^ 4 + 7 * h.K3 * R ^ 6

/-- The invariant of the bisection loop for a bracket `b = (min, max)` inside
`[0, R]`: `0 ≤ min ≤ max ≤ R` and `rResult min ≤ rTarget ≤ rResult max`. -/
def BracketInv (h : RiftDistortionHelper F) (rTarget R : F) (b : F × F) : Prop :=
  0 ≤ b.1 ∧ b.1 ≤ b.2 ∧ b.2 ≤ R ∧ resultRadius h b.1 ≤ rTarget ∧ rTarget ≤ resultRadius h b.2

/-- The constructor `RiftDistortionHelper(hmdInfo)`:
`K[i] = distortion.K[i] * postDistortionScale` with
`postDistortionScale = 1.0 / stereoConfig.GetDistortionScale()`,
`lensOffset = distortion.XCenterOffset` and
`eyeAspect = HScreenSize / 2.0f / VScreenSize`. The values supplied by the OVR
`StereoConfig` (`distortion.K`, `GetDistortionScale()`, `XCenterOffset`) and the
screen size of `hmdInfo` are the arguments. -/
def mkRiftDistortionHelper (distortionK0 distortionK1 distortionK2 distortionK3
    distortionScale xCenterOffset hScreenSize vScreenSize : F) : RiftDistortionHelper F :=
  let postDistortionScale := 1 / distortionScale
  { K0 := distortionK0 * postDistortionScale
    K1 := distortionK1 * postDistortionScale
    K2 := distortionK2 * postDistortionScale
    K3 := distortionK3 * postDistortionScale
    lensOffset := xCenterOffset
    eyeAspect := hScreenSize / 2 / vScreenSize }

/-- The helper built from the values of `Rift::getDefaultDk1HmdValues`
(`DistortionK = (1, 0.22f, 0.24f, 0)`, `HScreenSize = 0.14976f`,
`VScreenSize = 0.09360f`) for a distortion scale and a lens centre offset
supplied by the OVR `StereoConfig`. -/
def defaultDk1Helper (distortionScale xCenterOffset : F) : RiftDistortionHelper F :=
  mkRiftDistortionHelper 1 (22 / 100) (24 / 100) 0 distortionScale xCenterOffset
    (14976 / 100000) (9360 / 100000)

end Core

/-- A helper with the identity coefficients `K = (1, 0, 0, 0)`, over `ℚ`. -/
def identityHelper : RiftDistortionHelper ℚ :=
  { K0 := 1, K1 := 0, K2 := 0, K3 := 0, lensOffset := 1 / 10, eyeAspect := 4 / 5 }

/-- A helper with the linear scale `K = (4/3, 0, 0, 0)`, over `ℚ`. -/
def linearHelper : RiftDistortionHelper ℚ :=
  { K0 := 4 / 3, K1 := 0, K2 := 0, K3 := 0, lensOffset := 1 / 10, eyeAspect := 4 / 5 }

/-- A helper with the default DK1 coefficients `K = (1, 0.22, 0.24, 0)`, over `ℚ`. -/
def dk1Helper : RiftDistortionHelper ℚ :=
  { K0 := 1, K1 := 22 / 100, K2 := 24 / 100, K3 := 0, lensOffset := 3 / 20,
    eyeAspect := 4 / 5 }

/-- A helper with `K = (1/4, 0, 0, 0)`: the root of `r / 4 = rTarget` is
`4 * rTarget`, outside the bracket `[0, 2 * rTarget]`. -/
def quarterHelper : RiftDistortionHelper ℚ :=
  { K0 := 1 / 4, K1 := 0, K2 := 0, K3 := 0, lensOffset := 1 / 10, eyeAspect := 4 / 5 }

/-- A helper with the steep linear scale `K = (2 ^ 30, 0, 0, 0)`, over `ℚ`. -/
def steepHelper : RiftDistortionHelper ℚ :=
  { K0 := 2 ^ 30, K1 := 0, K2 := 0, K3 := 0, lensOffset := 1 / 10, eyeAspect := 4 / 5 }

/-! ## Auxiliary lemmas -/

section Lemmas

variable {F : Type} [LinearOrderedField F]

theorem foldl_append_flatMap {α β : Type} (f : β → List α) (l : List β) (init : List α) :
    l.foldl (fun acc i => acc ++ f i) init = init ++ l.flatMap f := by
  induction l generalizing init with
  | nil => simp
  | cons a t ih => simp [ih, List.flatMap_cons, List.append_assoc]

/-- A loop that only appends collects the appended pieces in order. -/
theorem forLoop_append {α : Type} (n : Nat) (f : Nat → List α) (init : List α) :
    forLoop n (fun i acc => acc ++ f i) init = init ++ (List.range n).flatMap f :=
  foldl_append_flatMap f (List.range n) init

theorem foldlM_append_flatMap {α β : Type} (f : β → Option (List α)) (g : β → List α)
    (l : List β) (hfg : ∀ i ∈ l, f i = some (g i)) (init : List α) :
    l.foldlM (fun acc i => (f i).map (fun vs => acc ++ vs)) init =
      some (init ++ l.flatMap g) := by
  induction l generalizing init with
  | nil => simp
  | cons a t ih =>
    have ha : f a = some (g a) := hfg a (List.mem_cons_self a t)
    have ht : ∀ i ∈ t, f i = some (g i) := fun i hi => hfg i (List.mem_cons_of_mem a hi)
    simp [List.foldlM, ha, ih ht, List.flatMap_cons, List.append_assoc]

theorem forLoopM_append {α : Type} (n : Nat) (f : Nat → Option (List α)) (g : Nat → List α)
    (hfg : ∀ i, i < n → f i = some (g i)) (init : List α) :
    forLoopM n (fun i acc => (f i).map (fun vs => acc ++ vs)) init =
      some (init ++ (List.range n).flatMap g) :=
  foldlM_append_flatMap f g (List.range n) (fun i hi => hfg i (List.mem_range.1 hi)) init

/-- A loop in which every inner loop finishes collects the rows in order. -/
theorem forLoopM_rows {α : Type} (n : Nat) (body : Nat → List α → Option (List α))
    (g : Nat → List α) (hbody : ∀ i, i < n → ∀ acc, body i acc = some (acc ++ g i))
    (init : List α) :
    forLoopM n body init = some (init ++ (List.range n).flatMap g) := by
  unfold forLoopM
  have key : ∀ (l : List Nat), (∀ i ∈ l, i < n) → ∀ init : List α,
      l.foldlM (fun acc i => body i acc) init = some (init ++ l.flatMap g) := by
    intro l
    induction l with
    | nil => intro _ init; simp
    | cons a t ih =>
      intro hl init
      have ha := hbody a (hl a (List.mem_cons_self a t)) init
      have ht := ih (fun i hi => hl i (List.mem_cons_of_mem a hi))
      simp [List.foldlM, ha, ht, List.flatMap_cons, List.append_assoc]
  exact key (List.range n) (fun i hi => List.mem_range.1 hi) init

theorem range_flatMap_head {α : Type} (n : Nat) (g : Nat → List α) :
    (List.range (n + 2)).flatMap g =
      g 0 ++ (g 1 ++ ((List.range n).map (fun i => i + 2)).flatMap g) := by
  rw [List.range_succ_eq_map, List.range_succ_eq_map, List.flatMap_cons, List.map_cons,
    List.flatMap_cons, List.map_map]
  rfl

theorem usub1_eq (n : Nat) (h1 : 1 ≤ n) (h2 : n < UINT_MOD) : usub1 n = n - 1 := by
  unfold usub1 UINT_MOD at *
  omega

/-- Invariant of the bisection loop: a value returned from a bracket inside
`[0, 2 * rTarget]` comes from a midpoint inside `[0, 2 * rTarget]` that passed
the tolerance test. -/
theorem bisect_sound (h : RiftDistortionHelper F) (rTarget : F) (fuel : Nat) :
    ∀ (min max s : F), 0 ≤ min → min ≤ max → max ≤ 2 * rTarget →
      bisect h rTarget fuel min max = some s →
      ∃ rSource : F, 0 ≤ rSource ∧ rSource ≤ 2 * rTarget ∧
        |rSource * getUndistortionScaleForRadiusSquared h (rSource ^ 2) - rTarget|
          < 1 / 1000000 ∧
        s = 1 / getUndistortionScaleForRadiusSquared h (rSource ^ 2) := by
  induction fuel with
  | zero => intro min max s _ _ _ hs; simp [bisect] at hs
  | succ n ih =>
    intro min max s h0 hle hmax hs
    have hmid1 : min ≤ (max - min) / 2 + min := by linarith
    have hmid2 : (max - min) / 2 + min ≤ max := by linarith
    simp only [bisect] at hs
    split_ifs at hs with hclose hlt
    · refine ⟨(max - min) / 2 + min, by linarith, by linarith, ?_, ?_⟩
      · simp only [epsilonEqual, tolerance, decide_eq_true_eq] at hclose
        rw [pow_two, mul_comm]
        exact hclose
      · rw [pow_two]
        exact (Option.some.inj hs).symm
    · exact ih _ _ s (by linarith) hmid2 hmax hs
    · exact ih _ _ s h0 hmid1 (by linarith) hs

/-- With `K = (1, 0, 0, 0)` the polynomial scale is `1`. -/
theorem scale_identity (h : RiftDistortionHelper F) (hK0 : h.K0 = 1) (hK1 : h.K1 = 0)
    (hK2 : h.K2 = 0) (hK3 : h.K3 = 0) (rSq : F) :
    getUndistortionScaleForRadiusSquared h rSq = 1 := by
  simp [getUndistortionScaleForRadiusSquared, hK0, hK1, hK2, hK3]

/-- With `K = (1, 0, 0, 0)` the bisection leaves in its first iteration. -/
theorem bisect_identity (h : RiftDistortionHelper F) (hK0 : h.K0 = 1) (hK1 : h.K1 = 0)
    (hK2 : h.K2 = 0) (hK3 : h.K3 = 0) (rTarget : F) (fuel : Nat) :
    getDistortionScaleForRadius (fuel + 1) h rTarget = some 1 := by
  have hmid : (rTarget * 2 - 0) / 2 + 0 = rTarget := by ring
  simp [getDistortionScaleForRadius, bisect, scale_identity h hK0 hK1 hK2 hK3, hmid,
    epsilonEqual, tolerance]

theorem find_identity (h : RiftDistortionHelper F) (hK0 : h.K0 = 1) (hK1 : h.K1 = 0)
    (hK2 : h.K2 = 0) (hK3 : h.K3 = 0) (ha : h.eyeAspect ≠ 0) (sqrt : F → F) (fuel : Nat)
    (p : DVec2 F) (eye : StereoEye) :
    findDistortedVertexPosition sqrt (fuel + 1) h p eye = some p := by
  simp only [findDistortedVertexPosition, bisect_identity h hK0 hK1 hK2 hK3]
  cases p with
  | mk x y =>
    simp [riftToScreen, screenToRift, ha]

theorem screenToTexture_textureToScreen (t : DVec2 F) :
    screenToTexture (textureToScreen t) = t := by
  cases t with
  | mk x y => simp [screenToTexture, textureToScreen]

theorem textureToScreen_screenToTexture (s : DVec2 F) :
    textureToScreen (screenToTexture s) = s := by
  cases s with
  | mk x y =>
    simp only [screenToTexture, textureToScreen, DVec2.mk.injEq]
    constructor <;> ring

theorem riftToScreen_screenToRift (h : RiftDistortionHelper F) (ha : h.eyeAspect ≠ 0)
    (s : DVec2 F) (eye : StereoEye) : riftToScreen h (screenToRift h s eye) eye = s := by
  cases s with
  | mk x y => simp [riftToScreen, screenToRift, ha]

/-- Mirroring the screen point and swapping the eye mirrors the result. -/
theorem find_mirror (h : RiftDistortionHelper F) (sqrt : F → F) (fuel : Nat) (x y : F) :
    findDistortedVertexPosition sqrt fuel h ⟨-x, y⟩ StereoEye.RIGHT =
      (findDistortedVertexPosition sqrt fuel h ⟨x, y⟩ StereoEye.LEFT).map
        (fun r => ⟨-r.x, r.y⟩) := by
  have hlen : length sqrt (screenToRift h ⟨-x, y⟩ StereoEye.RIGHT) =
      length sqrt (screenToRift h ⟨x, y⟩ StereoEye.LEFT) := by
    simp only [length, screenToRift, getLensOffset]
    congr 1
    simp
    ring
  simp only [findDistortedVertexPosition, hlen]
  cases getDistortionScaleForRadius fuel h
      (length sqrt (screenToRift h ⟨x, y⟩ StereoEye.LEFT)) with
  | none => rfl
  | some s =>
    simp [riftToScreen, screenToRift, getLensOffset]
    ring

/-- The stores of `createLookupTexture`, texel by texel in row-major order. -/
theorem createLookupTexture_writes (h : RiftDistortionHelper F) (size : UVec2)
    (eye : StereoEye) :
    (createLookupTexture h size eye).writes =
      (List.range size.y).flatMap fun y =>
        (List.range size.x).flatMap fun x => lookupTexel h size eye x y := by
  simp only [createLookupTexture]
  have hin : (fun (y : Nat) (acc : List (Nat × F)) =>
      forLoop size.x (fun x acc => acc ++ lookupTexel h size eye x y) acc) =
      fun y acc => acc ++ (List.range size.x).flatMap fun x => lookupTexel h size eye x y := by
    funext y acc
    exact forLoop_append size.x (fun x => lookupTexel h size eye x y) acc
  rw [hin, forLoop_append, List.nil_append]

theorem texelTexCoord_eq (size : UVec2) (x y : Nat) :
    (texelTexCoord size x y : DVec2 F) =
      ⟨((x : F) + 1 / 2) / (size.x : F), ((y : F) + 1 / 2) / (size.y : F)⟩ := by
  simp only [texelTexCoord, DVec2.mk.injEq]
  constructor <;> rw [add_div]

/-- The loop body of `createLookupTexture` stores `getTextureLookupValue` of
the texture coordinate of the texel. -/
theorem lookupTexel_eq (h : RiftDistortionHelper F) (size : UVec2) (eye : StereoEye)
    (x y : Nat) :
    lookupTexel h size eye x y =
      [(texelOffset size x y, (getTextureLookupValue h (texelTexCoord size x y) eye).x),
       ((texelOffset size x y + 1) % SIZE_MOD,
        (getTextureLookupValue h (texelTexCoord size x y) eye).y)] := rfl

theorem getTextureLookupValue_identity (h : RiftDistortionHelper F) (hK0 : h.K0 = 1)
    (hK1 : h.K1 = 0) (hK2 : h.K2 = 0) (hK3 : h.K3 = 0) (ha : h.eyeAspect ≠ 0)
    (c : DVec2 F) (eye : StereoEye) : getTextureLookupValue h c eye = c := by
  cases c with
  | mk x y =>
    simp [getTextureLookupValue, riftToTexture, textureToRift, getUndistortedPosition,
      getUndistortionScale, getUndistortionScaleForRadiusSquared, hK0, hK1, hK2, hK3,
      riftToScreen, screenToRift, screenToTexture, textureToScreen, ha]

/-- Without wrap-around of `rowSize` the offsets are the row-major ones. -/
theorem texelOffset_eq (width height x y : Nat) (hw : width * 2 < UINT_MOD)
    (hh : height < UINT_MOD) (hx : x < width) (hy : y < height) :
    texelOffset ⟨width, height⟩ x y = 2 * (y * width + x) ∧
    (texelOffset ⟨width, height⟩ x y + 1) % SIZE_MOD = 2 * (y * width + x) + 1 := by
  have hrs : rowSize ⟨width, height⟩ = width * 2 := by
    unfold rowSize
    exact Nat.mod_eq_of_lt hw
  have hb : y * (width * 2) + x * 2 + 1 < 2 ^ 64 := by
    unfold UINT_MOD at hw hh
    have h1 : y * (width * 2) ≤ 4294967295 * (width * 2) :=
      Nat.mul_le_mul_right _ (by omega)
    omega
  have he : 2 * (y * width + x) = y * (width * 2) + x * 2 := by ring
  unfold texelOffset SIZE_MOD
  rw [hrs, he]
  generalize y * (width * 2) = a at hb ⊢
  constructor <;> omega

theorem meshIndexRow_eq (res : UVec2) (y : Nat) (acc : List Nat) :
    meshIndexRow res y acc = acc ++
      (((List.range res.x).flatMap fun x =>
        [(((y * res.x) % SIZE_MOD + res.x) % SIZE_MOD + x) % SIZE_MOD % UINT_MOD,
         ((y * res.x) % SIZE_MOD + x) % SIZE_MOD % UINT_MOD]) ++ [UINT_MAX]) := by
  unfold meshIndexRow
  have hb : (fun (x : Nat) (acc : List Nat) =>
      (acc ++ [(((y * res.x) % SIZE_MOD + res.x) % SIZE_MOD + x) % SIZE_MOD % UINT_MOD]) ++
        [((y * res.x) % SIZE_MOD + x) % SIZE_MOD % UINT_MOD]) =
      fun x acc => acc ++
        [(((y * res.x) % SIZE_MOD + res.x) % SIZE_MOD + x) % SIZE_MOD % UINT_MOD,
         ((y * res.x) % SIZE_MOD + x) % SIZE_MOD % UINT_MOD] := by
    funext x acc
    rw [List.append_assoc]
    rfl
  show forLoop res.x _ acc ++ [UINT_MAX] = _
  rw [hb, forLoop_append, List.append_assoc]

/-- The index stream of `createDistortionMesh`, row by row. -/
theorem meshIndexData_eq (res : UVec2) :
    meshIndexData res = (List.range (usub1 res.y)).flatMap fun y =>
      (((List.range res.x).flatMap fun x =>
        [(((y * res.x) % SIZE_MOD + res.x) % SIZE_MOD + x) % SIZE_MOD % UINT_MOD,
         ((y * res.x) % SIZE_MOD + x) % SIZE_MOD % UINT_MOD]) ++ [UINT_MAX]) := by
  unfold meshIndexData
  have hrow : meshIndexRow res = fun y acc => acc ++
      (((List.range res.x).flatMap fun x =>
        [(((y * res.x) % SIZE_MOD + res.x) % SIZE_MOD + x) % SIZE_MOD % UINT_MOD,
         ((y * res.x) % SIZE_MOD + x) % SIZE_MOD % UINT_MOD]) ++ [UINT_MAX]) := by
    funext y acc
    exact meshIndexRow_eq res y acc
  rw [hrow, forLoop_append, List.nil_append]

theorem specIndexData_length (columns rows : Nat) :
    (specIndexData columns rows).length = (rows - 1) * (2 * columns + 1) := by
  simp [specIndexData, List.length_flatMap, Function.comp_def, mul_comm]

/-- An index of row `y < rows - 1` is below the number of vertices. -/
theorem index_lt (columns rows x y : Nat) (hx : x < columns) (hy : y + 1 < rows) :
    (y + 1) * columns + x < columns * rows := by
  calc (y + 1) * columns + x < (y + 1) * columns + columns := by omega
    _ = (y + 2) * columns := by ring
    _ ≤ rows * columns := Nat.mul_le_mul_right _ (by omega)
    _ = columns * rows := by ring

/-- Without wrap-around the indices of the loop are the ones of the specification. -/
theorem meshIndexData_eq_spec (columns rows : Nat) (hc : 1 ≤ columns) (hr : 1 ≤ rows)
    (hlt : columns * rows < UINT_MOD) :
    meshIndexData ⟨columns, rows⟩ = specIndexData columns rows := by
  have hrows : rows < UINT_MOD := lt_of_le_of_lt (Nat.le_mul_of_pos_left rows hc) hlt
  rw [meshIndexData_eq, specIndexData]
  dsimp only
  rw [usub1_eq rows hr hrows]
  apply List.flatMap_congr
  intro y hy
  have hy1 : y + 1 < rows := by have := List.mem_range.1 hy; omega
  congr 1
  apply List.flatMap_congr
  intro x hx
  have hb := index_lt columns rows x y (List.mem_range.1 hx) hy1
  have he : (y + 1) * columns = y * columns + columns := by ring
  unfold UINT_MOD at hlt
  have h1 : y * columns + columns + x < 2 ^ 32 := by omega
  rw [he]
  generalize y * columns = a at *
  unfold SIZE_MOD UINT_MOD
  congr 1
  · omega
  · congr 1
    omega

theorem specIndexData_count (columns rows : Nat) (hlt : columns * rows < UINT_MOD) :
    (specIndexData columns rows).count UINT_MAX = rows - 1 := by
  unfold specIndexData
  rw [List.count_flatMap]
  have hrow : ∀ y ∈ List.range (rows - 1),
      (List.count UINT_MAX ∘ fun y => ((List.range columns).flatMap fun x =>
        [(y + 1) * columns + x, y * columns + x]) ++ [UINT_MAX]) y = 1 := by
    intro y hy
    have hy1 : y + 1 < rows := by have := List.mem_range.1 hy; omega
    rw [Function.comp_apply, List.count_append, List.count_singleton_self]
    have h0 : List.count UINT_MAX ((List.range columns).flatMap fun x =>
        [(y + 1) * columns + x, y * columns + x]) = 0 := by
      rw [List.count_eq_zero]
      intro hmem
      obtain ⟨x, hx, hmem⟩ := List.mem_flatMap.1 hmem
      have hb := index_lt columns rows x y (List.mem_range.1 hx) hy1
      have he : (y + 1) * columns = y * columns + columns := by ring
      rw [List.mem_cons, List.mem_singleton] at hmem
      unfold UINT_MOD at hlt
      unfold UINT_MAX at hmem
      omega
    omega
  rw [List.map_congr_left hrow]
  simp

/-- The third index emitted for a two-row mesh with `n + 2` columns. -/
theorem meshIndexData_third (n : Nat) :
    ∃ a b R, meshIndexData ⟨n + 2, 2⟩ =
      a :: b :: ((((0 * (n + 2)) % SIZE_MOD + (n + 2)) % SIZE_MOD + 1) % SIZE_MOD % UINT_MOD)
        :: R := by
  rw [meshIndexData_eq]
  dsimp only
  rw [usub1_eq 2 (by decide) (by decide), show List.range (2 - 1) = [0] from rfl]
  simp only [List.flatMap_cons, List.flatMap_nil, List.append_nil, range_flatMap_head,
    List.cons_append, List.nil_append]
  exact ⟨_, _, _, rfl⟩

theorem specIndexData_third (n : Nat) :
    ∃ a b R, specIndexData (n + 2) 2 = a :: b :: ((0 + 1) * (n + 2) + 1) :: R := by
  rw [specIndexData, show List.range (2 - 1) = [0] from rfl]
  simp only [List.flatMap_cons, List.flatMap_nil, List.append_nil, range_flatMap_head,
    List.cons_append, List.nil_append]
  exact ⟨_, _, _, rfl⟩

/-- The vertex stream when every bisection finishes within `fuel` iterations. -/
theorem meshVertexData_of_some (sqrt : F → F) (fuel : Nat) (h : RiftDistortionHelper F)
    (res : UVec2) (eye : StereoEye) (g : Nat → Nat → List (Vec4 F))
    (hg : ∀ x y, x < res.x → y < res.y → meshVertex sqrt fuel h res eye x y = some (g x y)) :
    meshVertexData sqrt fuel h res eye =
      some ((List.range res.y).flatMap fun y => (List.range res.x).flatMap fun x => g x y) := by
  unfold meshVertexData
  rw [forLoopM_rows res.y _ (fun y => (List.range res.x).flatMap fun x => g x y)]
  · rw [List.nil_append]
  · intro y hy acc
    exact forLoopM_append res.x (fun x => meshVertex sqrt fuel h res eye x y)
      (fun x => g x y) (fun x hx => hg x y hx hy) acc

theorem meshVertex_identity (h : RiftDistortionHelper F) (hK0 : h.K0 = 1) (hK1 : h.K1 = 0)
    (hK2 : h.K2 = 0) (hK3 : h.K3 = 0) (ha : h.eyeAspect ≠ 0) (sqrt : F → F) (fuel : Nat)
    (columns rows : Nat) (hc : 2 ≤ columns) (hr : 2 ≤ rows) (hcu : columns < UINT_MOD)
    (hru : rows < UINT_MOD) (eye : StereoEye) (x y : Nat) :
    meshVertex sqrt (fuel + 1) h ⟨columns, rows⟩ eye x y =
      some [⟨2 * ((x : F) / ((columns - 1 : ℕ) : F)) - 1,
             2 * ((y : F) / ((rows - 1 : ℕ) : F)) - 1, 0, 1⟩,
            ⟨(x : F) / ((columns - 1 : ℕ) : F), (y : F) / ((rows - 1 : ℕ) : F), 0, 1⟩] := by
  simp only [meshVertex, find_identity h hK0 hK1 hK2 hK3 ha, meshTexCoord,
    usub1_eq columns (by omega) hcu, usub1_eq rows (by omega) hru]
  simp only [mul_comm]

/-- Under the identity coefficients the vertex stream is the regular grid. -/
theorem meshVertexData_identity (h : RiftDistortionHelper F) (hK0 : h.K0 = 1)
    (hK1 : h.K1 = 0) (hK2 : h.K2 = 0) (hK3 : h.K3 = 0) (ha : h.eyeAspect ≠ 0)
    (sqrt : F → F) (fuel : Nat) (columns rows : Nat) (hc : 2 ≤ columns) (hr : 2 ≤ rows)
    (hcu : columns < UINT_MOD) (hru : rows < UINT_MOD) (eye : StereoEye) :
    meshVertexData sqrt (fuel + 1) h ⟨columns, rows⟩ eye =
      some ((List.range rows).flatMap fun y =>
        (List.range columns).flatMap fun x =>
          [(⟨2 * ((x : F) / ((columns - 1 : ℕ) : F)) - 1,
            2 * ((y : F) / ((rows - 1 : ℕ) : F)) - 1, 0, 1⟩ : Vec4 F),
           ⟨(x : F) / ((columns - 1 : ℕ) : F), (y : F) / ((rows - 1 : ℕ) : F), 0, 1⟩]) :=
  meshVertexData_of_some sqrt (fuel + 1) h ⟨columns, rows⟩ eye _
    (fun x y _ _ => meshVertex_identity h hK0 hK1 hK2 hK3 ha sqrt fuel columns rows
      hc hr hcu hru eye x y)

/-- The offsets of one row of texels are consecutive. -/
theorem pair_offsets_row (a w : Nat) :
    ((List.range w).flatMap fun x => [2 * (a + x), 2 * (a + x) + 1]) =
      List.range' (2 * a) (2 * w) := by
  induction w with
  | zero => rfl
  | succ k ih =>
    have key := List.range'_append_1 (2 * a) (2 * k) 2
    have h2 : List.range' (2 * a + 2 * k) 2 = [2 * (a + k), 2 * (a + k) + 1] := by
      rw [show 2 * a + 2 * k = 2 * (a + k) from by ring]
      rfl
    rw [List.range_succ, List.flatMap_append, ih, List.flatMap_cons, List.flatMap_nil,
      List.append_nil, ← h2, key]
    congr 1
    ring

/-- Row-major pairs of offsets enumerate `0, 1, ..., 2 * w * h - 1` in order. -/
theorem pair_offsets (w h : Nat) :
    ((List.range h).flatMap fun y =>
      (List.range w).flatMap fun x => [2 * (y * w + x), 2 * (y * w + x) + 1]) =
      List.range (2 * (w * h)) := by
  induction h with
  | zero => rfl
  | succ k ih =>
    have key := List.range'_append_1 0 (2 * (w * k)) (2 * w)
    rw [List.range_succ, List.flatMap_append, ih, List.flatMap_cons, List.flatMap_nil,
      List.append_nil, pair_offsets_row, List.range_eq_range', List.range_eq_range',
      show 2 * (k * w) = 0 + 2 * (w * k) from by ring, key]
    congr 1
    ring

theorem specLookupWrites_offsets (h : RiftDistortionHelper F) (width height : Nat) (eye : StereoEye) :
    (specLookupWrites h width height eye).map Prod.fst = List.range (2 * (width * height)) := by
  rw [← pair_offsets, specLookupWrites, List.map_flatMap]
  apply List.flatMap_congr
  intro y _
  rw [List.map_flatMap]
  rfl
/-- The polynomial scale is non-decreasing in the squared radius when
`K1, K2, K3 ≥ 0`. -/
theorem scale_mono (h : RiftDistortionHelper F) (h1 : 0 ≤ h.K1) (h2 : 0 ≤ h.K2)
    (h3 : 0 ≤ h.K3) (a b : F) (ha : 0 ≤ a) (hab : a ≤ b) :
    getUndistortionScaleForRadiusSquared h a ≤ getUndistortionScaleForRadiusSquared h b := by
  unfold getUndistortionScaleForRadiusSquared
  have hb : 0 ≤ b := le_trans ha hab
  have e3 : a * h.K3 ≤ b * h.K3 := mul_le_mul_of_nonneg_right hab h3
  have p2 : 0 ≤ h.K2 + a * h.K3 := add_nonneg h2 (mul_nonneg ha h3)
  have e2 : a * (h.K2 + a * h.K3) ≤ b * (h.K2 + b * h.K3) :=
    mul_le_mul hab (by linarith) p2 hb
  have p1 : 0 ≤ h.K1 + a * (h.K2 + a * h.K3) := add_nonneg h1 (mul_nonneg ha p2)
  have e1 : a * (h.K1 + a * (h.K2 + a * h.K3)) ≤ b * (h.K1 + b * (h.K2 + b * h.K3)) :=
    mul_le_mul hab (by linarith) p1 hb
  linarith

/-- A run of the loop that has left keeps its result when more iterations are
allowed. -/
theorem bisect_mono (h : RiftDistortionHelper F) (rTarget : F) (fuel : Nat) :
    ∀ (min max s : F), bisect h rTarget fuel min max = some s →
      ∀ k : Nat, bisect h rTarget (fuel + k) min max = some s := by
  induction fuel with
  | zero => intro min max s hs; simp [bisect] at hs
  | succ n ih =>
    intro min max s hs k
    rw [show n + 1 + k = (n + k) + 1 from by omega]
    simp only [bisect] at hs ⊢
    split_ifs at hs ⊢ with hclose hlt
    · exact hs
    · exact ih _ _ s hs k
    · exact ih _ _ s hs k

/-- When no radius of the bracket passes the tolerance test the loop never
leaves. -/
theorem bisect_none_of_no_root (h : RiftDistortionHelper F) (rTarget : F)
    (hr : 0 ≤ rTarget)
    (hno : ∀ r : F, 0 ≤ r → r ≤ 2 * rTarget →
      ¬ |r * getUndistortionScaleForRadiusSquared h (r ^ 2) - rTarget| < 1 / 1000000)
    (fuel : Nat) : getDistortionScaleForRadius fuel h rTarget = none := by
  cases hres : getDistortionScaleForRadius fuel h rTarget with
  | none => rfl
  | some s =>
    obtain ⟨r, hr0, hr2, hclose, _⟩ :=
      bisect_sound h rTarget fuel 0 (rTarget * 2) s le_rfl (by linarith) (by linarith) hres
    exact absurd hclose (hno r hr0 hr2)

/-- First iteration at the lens centre: `rTarget = 0` gives the bracket `[0, 0]`. -/
theorem bisect_zero (h : RiftDistortionHelper F) (fuel : Nat) :
    getDistortionScaleForRadius (fuel + 1) h 0 = some (1 / h.K0) := by
  simp [getDistortionScaleForRadius, bisect, getUndistortionScaleForRadiusSquared,
    epsilonEqual, tolerance]

theorem find_centre (h : RiftDistortionHelper F) (sqrt : F → F)
    (hsqrt : sqrt 0 = 0) (fuel : Nat) (eye : StereoEye) :
    findDistortedVertexPosition sqrt (fuel + 1) h ⟨-getLensOffset h eye, 0⟩ eye =
      some ⟨-getLensOffset h eye, 0⟩ := by
  have hlen : length sqrt (screenToRift h ⟨-getLensOffset h eye, 0⟩ eye) = 0 := by
    simp [length, screenToRift, hsqrt]
  simp only [findDistortedVertexPosition, hlen, bisect_zero]
  simp [riftToScreen, screenToRift]

theorem lookup_centre (h : RiftDistortionHelper F) (eye : StereoEye) :
    getTextureLookupValue h ⟨(1 - getLensOffset h eye) / 2, 1 / 2⟩ eye =
      ⟨(1 - getLensOffset h eye) / 2, 1 / 2⟩ := by
  simp only [getTextureLookupValue, riftToTexture, textureToRift, getUndistortedPosition,
    getUndistortionScale, length2, riftToScreen, screenToRift, screenToTexture,
    textureToScreen, DVec2.mk.injEq]
  constructor
  · ring
  · ring
theorem foldlM_append_length {α β : Type} (f : β → Option (List α)) (k : Nat)
    (hk : ∀ i v, f i = some v → v.length = k) (l : List β) :
    ∀ (init r : List α),
      l.foldlM (fun acc i => (f i).map (fun vs => acc ++ vs)) init = some r →
      r.length = init.length + k * l.length := by
  induction l with
  | nil =>
    intro init r hr
    simp only [List.foldlM, pure, Option.some.injEq] at hr
    rw [← hr]
    simp
  | cons a t ih =>
    intro init r hr
    rw [List.foldlM_cons] at hr
    cases hfa : f a with
    | none => rw [hfa] at hr; exact Option.noConfusion hr
    | some v =>
      rw [hfa] at hr
      have := ih (init ++ v) r hr
      rw [this, List.length_append, hk a v hfa, List.length_cons]
      ring

theorem foldlM_rows_length {α : Type} (body : Nat → List α → Option (List α)) (m : Nat)
    (hbody : ∀ i acc r, body i acc = some r → r.length = acc.length + m) (l : List Nat) :
    ∀ (init r : List α), l.foldlM (fun acc i => body i acc) init = some r →
      r.length = init.length + m * l.length := by
  induction l with
  | nil =>
    intro init r hr
    simp only [List.foldlM, pure, Option.some.injEq] at hr
    rw [← hr]
    simp
  | cons a t ih =>
    intro init r hr
    rw [List.foldlM_cons] at hr
    cases hfa : body a init with
    | none => rw [hfa] at hr; exact Option.noConfusion hr
    | some v =>
      rw [hfa] at hr
      have := ih v r hr
      rw [this, hbody a init v hfa, List.length_cons]
      ring

theorem meshVertex_length (sqrt : F → F) (fuel : Nat) (h : RiftDistortionHelper F)
    (res : UVec2) (eye : StereoEye) (x y : Nat) (v : List (Vec4 F))
    (hv : meshVertex sqrt fuel h res eye x y = some v) : v.length = 2 := by
  unfold meshVertex at hv
  dsimp only at hv
  split at hv
  · exact Option.noConfusion hv
  · rw [← Option.some.inj hv]
    rfl

/-- A mesh that is returned has two `vec4` per grid cell. -/
theorem meshVertexData_length (sqrt : F → F) (fuel : Nat) (h : RiftDistortionHelper F)
    (res : UVec2) (eye : StereoEye) (vs : List (Vec4 F))
    (hvs : meshVertexData sqrt fuel h res eye = some vs) :
    vs.length = 2 * (res.x * res.y) := by
  unfold meshVertexData forLoopM at hvs
  have := foldlM_rows_length _ (2 * res.x) (fun y acc r hr =>
    (by
      have h1 := foldlM_append_length (fun x => meshVertex sqrt fuel h res eye x y) 2
        (fun x v hv => meshVertex_length sqrt fuel h res eye x y v hv)
        (List.range res.x) acc r hr
      rw [h1, List.length_range] : r.length = acc.length + 2 * res.x)) (List.range res.y) [] vs hvs
  rw [this, List.length_range, List.length_nil]
  ring

/-- Every entry of the index stream of the specification is the sentinel or
the index of an emitted vertex. -/
theorem specIndexData_mem (columns rows i : Nat) (hi : i ∈ specIndexData columns rows) :
    i = UINT_MAX ∨ i < columns * rows := by
  unfold specIndexData at hi
  obtain ⟨y, hy, hi⟩ := List.mem_flatMap.1 hi
  have hy1 : y + 1 < rows := by have := List.mem_range.1 hy; omega
  rcases List.mem_append.1 hi with hi | hi
  · obtain ⟨x, hx, hi⟩ := List.mem_flatMap.1 hi
    have hb := index_lt columns rows x y (List.mem_range.1 hx) hy1
    have he : (y + 1) * columns = y * columns + columns := by ring
    rw [List.mem_cons, List.mem_singleton] at hi
    right
    omega
  · left
    exact List.mem_singleton.1 hi

/-- Without wrap-around the allocated length is `width * height * 2`. -/
theorem lookupDataSize_eq (width height : Nat) (hlt : width * height * 2 < UINT_MOD) :
    lookupDataSize ⟨width, height⟩ = width * height * 2 := by
  unfold lookupDataSize
  dsimp only
  unfold UINT_MOD at *
  omega
theorem resultRadius_eq (h : RiftDistortionHelper F) (r : F) :
    resultRadius h r = h.K0 * r + h.K1 * r ^ 3 + h.K2 * r ^ 5 + h.K3 * r ^ 7 := by
  unfold resultRadius getUndistortionScaleForRadiusSquared
  ring

theorem pow_sub_pow_le (a b R : F) (ha : 0 ≤ a) (hab : a ≤ b) (hbR : b ≤ R) (n : Nat) :
    b ^ (n + 1) - a ^ (n + 1) ≤ ((n : F) + 1) * R ^ n * (b - a) := by
  have hb : 0 ≤ b := le_trans ha hab
  have hR : 0 ≤ R := le_trans hb hbR
  induction n with
  | zero => simp
  | succ k ih =>
    have h1 : b ^ (k + 1 + 1) - a ^ (k + 1 + 1) =
        b * (b ^ (k + 1) - a ^ (k + 1)) + (b - a) * a ^ (k + 1) := by ring
    have h2 : b * (b ^ (k + 1) - a ^ (k + 1)) ≤ R * (((k : F) + 1) * R ^ k * (b - a)) := by
      apply mul_le_mul hbR ih
      · have := pow_le_pow_left₀ ha hab (k + 1)
        linarith
      · exact hR
    have h3 : (b - a) * a ^ (k + 1) ≤ (b - a) * R ^ (k + 1) :=
      mul_le_mul_of_nonneg_left (pow_le_pow_left₀ ha (le_trans hab hbR) (k + 1)) (by linarith)
    rw [h1]
    push_cast
    calc b * (b ^ (k + 1) - a ^ (k + 1)) + (b - a) * a ^ (k + 1)
        ≤ R * (((k : F) + 1) * R ^ k * (b - a)) + (b - a) * R ^ (k + 1) := add_le_add h2 h3
      _ = ((k : F) + 1 + 1) * R ^ (k + 1) * (b - a) := by ring

theorem resultRadius_mono (h : RiftDistortionHelper F) (h0 : 0 ≤ h.K0) (h1 : 0 ≤ h.K1)
    (h2 : 0 ≤ h.K2) (h3 : 0 ≤ h.K3) (a b : F) (ha : 0 ≤ a) (hab : a ≤ b) :
    resultRadius h a ≤ resultRadius h b := by
  rw [resultRadius_eq, resultRadius_eq]
  have e1 := mul_le_mul_of_nonneg_left hab h0
  have e3 := mul_le_mul_of_nonneg_left (pow_le_pow_left₀ ha hab 3) h1
  have e5 := mul_le_mul_of_nonneg_left (pow_le_pow_left₀ ha hab 5) h2
  have e7 := mul_le_mul_of_nonneg_left (pow_le_pow_left₀ ha hab 7) h3
  linarith

theorem resultRadius_lipschitz (h : RiftDistortionHelper F) (h1 : 0 ≤ h.K1)
    (h2 : 0 ≤ h.K2) (h3 : 0 ≤ h.K3) (a b R : F) (ha : 0 ≤ a) (hab : a ≤ b) (hbR : b ≤ R) :
    resultRadius h b - resultRadius h a ≤ slopeBound h R * (b - a) := by
  rw [resultRadius_eq, resultRadius_eq, slopeBound]
  have e3 := mul_le_mul_of_nonneg_left (pow_sub_pow_le a b R ha hab hbR 2) h1
  have e5 := mul_le_mul_of_nonneg_left (pow_sub_pow_le a b R ha hab hbR 4) h2
  have e7 := mul_le_mul_of_nonneg_left (pow_sub_pow_le a b R ha hab hbR 6) h3
  push_cast at e3 e5 e7
  nlinarith [e3, e5, e7]

theorem slopeBound_mono (h : RiftDistortionHelper F) (h1 : 0 ≤ h.K1)
    (h2 : 0 ≤ h.K2) (h3 : 0 ≤ h.K3) (R S : F) (hR : 0 ≤ R) (hRS : R ≤ S) :
    slopeBound h R ≤ slopeBound h S := by
  unfold slopeBound
  have e2 := mul_le_mul_of_nonneg_left (pow_le_pow_left₀ hR hRS 2) (mul_nonneg (by norm_num : (0:F) ≤ 3) h1)
  have e4 := mul_le_mul_of_nonneg_left (pow_le_pow_left₀ hR hRS 4) (mul_nonneg (by norm_num : (0:F) ≤ 5) h2)
  have e6 := mul_le_mul_of_nonneg_left (pow_le_pow_left₀ hR hRS 6) (mul_nonneg (by norm_num : (0:F) ≤ 7) h3)
  linarith

/-- One pass of the loop: either the tolerance test succeeds or the loop goes on
with the bracket given by `bisectStep`. -/
theorem bisect_succ (h : RiftDistortionHelper F) (rTarget : F) (n : Nat) (mn mx : F) :
    bisect h rTarget (n + 1) mn mx =
      if epsilonEqual (resultRadius h ((mx - mn) / 2 + mn)) rTarget tolerance then
        some (1 / getUndistortionScaleForRadiusSquared h
          (((mx - mn) / 2 + mn) * ((mx - mn) / 2 + mn)))
      else bisect h rTarget n (bisectStep h rTarget (mn, mx)).1
        (bisectStep h rTarget (mn, mx)).2 := by
  simp only [bisect, bisectStep, resultRadius]
  split_ifs <;> rfl

theorem bisectStep_width (h : RiftDistortionHelper F) (rTarget : F) (b : F × F) :
    (bisectStep h rTarget b).2 - (bisectStep h rTarget b).1 = (b.2 - b.1) / 2 := by
  unfold bisectStep
  dsimp only
  split_ifs <;> dsimp only <;> ring

theorem bisectStep_inv (h : RiftDistortionHelper F) (rTarget R : F) (b : F × F)
    (hb : BracketInv h rTarget R b) : BracketInv h rTarget R (bisectStep h rTarget b) := by
  obtain ⟨h0, h1, h2, h3, h4⟩ := hb
  unfold bisectStep BracketInv
  dsimp only
  split_ifs with hlt
  · dsimp only
    exact ⟨by linarith, by linarith, h2, le_of_lt hlt, h4⟩
  · dsimp only
    exact ⟨h0, by linarith, by linarith, h3, le_of_not_lt hlt⟩

/-- The tolerance test succeeds at the midpoint of a bracket that is short
enough. -/
theorem close_of_short (h : RiftDistortionHelper F) (h1 : 0 ≤ h.K1)
    (h2 : 0 ≤ h.K2) (h3 : 0 ≤ h.K3) (rTarget R : F) (b : F × F)
    (hb : BracketInv h rTarget R b)
    (hshort : slopeBound h R * (b.2 - b.1) < tolerance * 2) :
    epsilonEqual (resultRadius h ((b.2 - b.1) / 2 + b.1)) rTarget tolerance = true := by
  obtain ⟨hb0, hb1, hb2, hb3, hb4⟩ := hb
  have hm1 : b.1 ≤ (b.2 - b.1) / 2 + b.1 := by linarith
  have hm2 : (b.2 - b.1) / 2 + b.1 ≤ b.2 := by linarith
  have l1 := resultRadius_lipschitz h h1 h2 h3 b.1 ((b.2 - b.1) / 2 + b.1) R hb0 hm1
    (le_trans hm2 hb2)
  have l2 := resultRadius_lipschitz h h1 h2 h3 ((b.2 - b.1) / 2 + b.1) b.2 R
    (le_trans hb0 hm1) hm2 hb2
  have w1 : (b.2 - b.1) / 2 + b.1 - b.1 = (b.2 - b.1) / 2 := by ring
  have w2 : b.2 - ((b.2 - b.1) / 2 + b.1) = (b.2 - b.1) / 2 := by ring
  rw [w1] at l1
  rw [w2] at l2
  have hhalf : slopeBound h R * ((b.2 - b.1) / 2) < tolerance := by linarith
  simp only [epsilonEqual, decide_eq_true_eq, abs_lt]
  constructor <;> linarith

/-- Quantitative termination: a bracket satisfying the invariant whose length
times the slope bound is below `tolerance * 2 ^ (n + 1)` is left within `n + 1`
passes. -/
theorem bisect_terminates (h : RiftDistortionHelper F) (h1 : 0 ≤ h.K1)
    (h2 : 0 ≤ h.K2) (h3 : 0 ≤ h.K3) (rTarget R : F) (n : Nat) :
    ∀ b : F × F, BracketInv h rTarget R b →
      slopeBound h R * (b.2 - b.1) < tolerance * 2 ^ (n + 1) →
      ∃ s, bisect h rTarget (n + 1) b.1 b.2 = some s := by
  induction n with
  | zero =>
    intro b hb hshort
    rw [bisect_succ, close_of_short h h1 h2 h3 rTarget R b hb (by simpa using hshort)]
    exact ⟨_, rfl⟩
  | succ k ih =>
    intro b hb hshort
    rw [bisect_succ]
    split_ifs with hclose
    · exact ⟨_, rfl⟩
    · apply ih _ (bisectStep_inv h rTarget R b hb)
      rw [bisectStep_width]
      have : (2 : F) ^ (k + 1 + 1) = 2 ^ (k + 1) * 2 := by ring
      rw [this] at hshort
      linarith

/-- The initial bracket `[0, 2 * rTarget]` satisfies the invariant when
`K0 ≥ 1/2` and `K1, K2, K3 ≥ 0`. -/
theorem initial_inv (h : RiftDistortionHelper F) (h0 : 1 / 2 ≤ h.K0) (h1 : 0 ≤ h.K1)
    (h2 : 0 ≤ h.K2) (h3 : 0 ≤ h.K3) (rTarget : F) (hr : 0 ≤ rTarget) :
    BracketInv h rTarget (2 * rTarget) (0, rTarget * 2) := by
  refine ⟨le_rfl, by dsimp only; linarith, by dsimp only; linarith, ?_, ?_⟩
  · dsimp only
    rw [resultRadius_eq]
    simp
    exact hr
  · dsimp only
    rw [resultRadius_eq]
    have hR : 0 ≤ rTarget * 2 := by linarith
    have e0 : 1 / 2 * (rTarget * 2) ≤ h.K0 * (rTarget * 2) :=
      mul_le_mul_of_nonneg_right h0 hR
    have e3 : 0 ≤ h.K1 * (rTarget * 2) ^ 3 := mul_nonneg h1 (pow_nonneg hR 3)
    have e5 : 0 ≤ h.K2 * (rTarget * 2) ^ 5 := mul_nonneg h2 (pow_nonneg hR 5)
    have e7 : 0 ≤ h.K3 * (rTarget * 2) ^ 7 := mul_nonneg h3 (pow_nonneg hR 7)
    linarith

theorem bracketAfter_inv (h : RiftDistortionHelper F) (h0 : 1 / 2 ≤ h.K0) (h1 : 0 ≤ h.K1)
    (h2 : 0 ≤ h.K2) (h3 : 0 ≤ h.K3) (rTarget : F) (hr : 0 ≤ rTarget) (n : Nat) :
    BracketInv h rTarget (2 * rTarget) (bracketAfter h rTarget n) ∧
    (bracketAfter h rTarget n).2 - (bracketAfter h rTarget n).1 = 2 * rTarget / 2 ^ n := by
  induction n with
  | zero =>
    refine ⟨initial_inv h h0 h1 h2 h3 rTarget hr, ?_⟩
    simp [bracketAfter]
    ring
  | succ k ih =>
    unfold bracketAfter at ih ⊢
    rw [Function.iterate_succ_apply']
    refine ⟨bisectStep_inv h rTarget _ _ ih.1, ?_⟩
    rw [bisectStep_width, ih.2, pow_succ]
    field_simp

/-- While the loop has not left, its bracket is the one given by `bracketAfter`. -/
theorem bisect_eq_bracket (h : RiftDistortionHelper F) (rTarget : F) (n : Nat) :
    ∀ b : F × F, bisect h rTarget n b.1 b.2 = none →
      ∀ k : Nat, bisect h rTarget (n + k) b.1 b.2 =
        bisect h rTarget k ((bisectStep h rTarget)^[n] b).1
          ((bisectStep h rTarget)^[n] b).2 := by
  induction n with
  | zero => intro b _ k; simp
  | succ m ih =>
    intro b hb k
    rw [bisect_succ] at hb
    rw [show m + 1 + k = (m + k) + 1 from by omega, bisect_succ]
    split_ifs at hb ⊢ with hclose
    rw [Function.iterate_succ_apply]
    exact ih _ hb k

/-- A pass of the loop whose `rResult` exceeds `rTarget` by at least the
tolerance: `max` becomes the midpoint `m`. -/
theorem bisect_step_hi (h : RiftDistortionHelper F) (rTarget : F) (n : Nat) (mn mx m : F)
    (hm : (mx - mn) / 2 + mn = m) (hhi : rTarget + tolerance ≤ resultRadius h m) :
    bisect h rTarget (n + 1) mn mx = bisect h rTarget n mn m := by
  have htol : (0 : F) < tolerance := by unfold tolerance; norm_num
  have hnc : epsilonEqual (resultRadius h m) rTarget tolerance = false := by
    simp only [epsilonEqual, decide_eq_false_iff_not, abs_lt, not_and, not_lt]
    intro _
    linarith
  rw [bisect_succ, hm, hnc]
  simp only [Bool.false_eq_true, if_false, bisectStep, hm]
  rw [if_neg (by linarith)]

/-- A pass of the loop whose `rResult` stays below `rTarget` by at least the
tolerance: `min` becomes the midpoint `m`. -/
theorem bisect_step_lo (h : RiftDistortionHelper F) (rTarget : F) (n : Nat) (mn mx m : F)
    (hm : (mx - mn) / 2 + mn = m) (hlo : resultRadius h m ≤ rTarget - tolerance) :
    bisect h rTarget (n + 1) mn mx = bisect h rTarget n m mx := by
  have htol : (0 : F) < tolerance := by unfold tolerance; norm_num
  have hnc : epsilonEqual (resultRadius h m) rTarget tolerance = false := by
    simp only [epsilonEqual, decide_eq_false_iff_not, abs_lt, not_and, not_lt]
    intro hc
    linarith
  rw [bisect_succ, hm, hnc]
  simp only [Bool.false_eq_true, if_false, bisectStep, hm]
  rw [if_pos (by linarith)]

/-- For `K0 > 0` and `K1, K2, K3 ≥ 0` the map `r ↦ rResult r` is strictly
increasing on `r ≥ 0`. -/
theorem resultRadius_strictMono (h : RiftDistortionHelper F) (h0 : 0 < h.K0)
    (h1 : 0 ≤ h.K1) (h2 : 0 ≤ h.K2) (h3 : 0 ≤ h.K3) (a b : F) (ha : 0 ≤ a) (hab : a < b) :
    resultRadius h a < resultRadius h b := by
  rw [resultRadius_eq, resultRadius_eq]
  have e1 := mul_lt_mul_of_pos_left hab h0
  have e3 := mul_le_mul_of_nonneg_left (pow_le_pow_left₀ ha (le_of_lt hab) 3) h1
  have e5 := mul_le_mul_of_nonneg_left (pow_le_pow_left₀ ha (le_of_lt hab) 5) h2
  have e7 := mul_le_mul_of_nonneg_left (pow_le_pow_left₀ ha (le_of_lt hab) 7) h3
  linarith

end Lemmas

/-! ## The array filled by `createLookupTexture` -/

/-- Stores to consecutive offsets, starting behind the cells `pre`, fill the
array in order. -/
theorem foldlM_storeFloat_dense {F : Type} (l : List (Nat × F)) :
    ∀ (pre : List (Option F)) (r : Nat),
      l.map Prod.fst = List.range' pre.length l.length →
      l.foldlM storeFloat (pre ++ List.replicate (l.length + r) none) =
        some (pre ++ l.map (fun w => some w.2) ++ List.replicate r none) := by
  induction l with
  | nil => intro pre r _; simp
  | cons a t ih =>
    intro pre r hl
    rw [List.map_cons, List.length_cons, List.range'_succ, List.cons.injEq] at hl
    obtain ⟨ha, ht⟩ := hl
    have hlen : a.1 < (pre ++ List.replicate ((a :: t).length + r) none).length := by
      rw [List.length_append, List.length_replicate, List.length_cons, ha]
      omega
    have hset : (pre ++ List.replicate ((a :: t).length + r) (none : Option F)).set a.1
        (some a.2) = (pre ++ [some a.2]) ++ List.replicate (t.length + r) none := by
      rw [ha, List.length_cons, show t.length + 1 + r = (t.length + r) + 1 from by omega,
        List.replicate_succ, List.set_append_right _ _ (le_refl _), Nat.sub_self,
        List.set_cons_zero, List.append_assoc]
      rfl
    rw [List.foldlM_cons, storeFloat, if_pos hlen, hset]
    have := ih (pre ++ [some a.2]) r (by rw [List.length_append]; exact ht)
    simp only [Option.bind_eq_bind, Option.some_bind]
    rw [this]
    simp

/-- A first store outside the array leaves no array. -/
theorem buffer_none_of_first_store {F : Type} (d : LookupData F) (w : Nat × F)
    (rest : List (Nat × F)) (hw : d.writes = w :: rest) (hout : ¬ w.1 < d.size) :
    d.buffer = none := by
  unfold LookupData.buffer
  rw [hw, List.foldlM_cons, storeFloat, List.length_replicate, if_neg hout]
  rfl

section Buffer

variable {F : Type} [LinearOrderedField F]

/-- The first store of `createLookupTexture` for a size with at least one
texel is the first channel of texel `(0, 0)`. -/
theorem createLookupTexture_first_store (h : RiftDistortionHelper F) (eye : StereoEye)
    (n m : Nat) :
    ∃ rest, (createLookupTexture h ⟨n + 1, m + 1⟩ eye).writes =
      (texelOffset ⟨n + 1, m + 1⟩ 0 0,
        (getTextureLookupValue h (texelTexCoord ⟨n + 1, m + 1⟩ 0 0) eye).x) :: rest := by
  rw [createLookupTexture_writes]
  dsimp only
  rw [List.range_succ_eq_map m, List.flatMap_cons, List.range_succ_eq_map n,
    List.flatMap_cons, lookupTexel_eq]
  exact ⟨_, rfl⟩

/-- Without wrap-around of `rowSize` the stores are the ones of the
specification. -/
theorem createLookupTexture_writes_spec (h : RiftDistortionHelper F) (eye : StereoEye)
    (width height : Nat) (hw : width * 2 < UINT_MOD) (hh : height < UINT_MOD) :
    (createLookupTexture h ⟨width, height⟩ eye).writes =
      specLookupWrites h width height eye := by
  rw [createLookupTexture_writes, specLookupWrites]
  apply List.flatMap_congr
  intro y hy
  apply List.flatMap_congr
  intro x hx
  have hx := List.mem_range.1 hx
  have hy := List.mem_range.1 hy
  dsimp only at hx hy
  obtain ⟨h1, h2⟩ := texelOffset_eq width height x y hw hh hx hy
  rw [lookupTexel_eq, h2, h1, texelTexCoord_eq]

/-- When the allocation size does not wrap, every store is inside the array and
the array holds, in row-major order, the two channels of every texel: the value
of `getTextureLookupValue` at the pixel centre. -/
theorem lookupBuffer_eq (h : RiftDistortionHelper F) (eye : StereoEye)
    (width height : Nat) (hw1 : 1 ≤ width) (hh1 : 1 ≤ height)
    (hlt : width * height * 2 < UINT_MOD) :
    (createLookupTexture h ⟨width, height⟩ eye).buffer =
      some ((List.range height).flatMap fun y =>
        (List.range width).flatMap fun x =>
          [some (getTextureLookupValue h
              ⟨((x : F) + 1 / 2) / (width : F), ((y : F) + 1 / 2) / (height : F)⟩ eye).x,
           some (getTextureLookupValue h
              ⟨((x : F) + 1 / 2) / (width : F), ((y : F) + 1 / 2) / (height : F)⟩ eye).y]) := by
  have hw : width * 2 < UINT_MOD := by
    have : width * 1 ≤ width * height := Nat.mul_le_mul_left width hh1
    omega
  have hh : height < UINT_MOD := by
    have : 1 * height ≤ width * height := Nat.mul_le_mul_right height hw1
    omega
  have hlen : (specLookupWrites h width height eye).length = width * height * 2 := by
    have := congrArg List.length (specLookupWrites_offsets h width height eye)
    rw [List.length_map, List.length_range] at this
    omega
  have hval : (specLookupWrites h width height eye).map (fun w => some w.2) =
      (List.range height).flatMap fun y =>
        (List.range width).flatMap fun x =>
          [some (getTextureLookupValue h
              ⟨((x : F) + 1 / 2) / (width : F), ((y : F) + 1 / 2) / (height : F)⟩ eye).x,
           some (getTextureLookupValue h
              ⟨((x : F) + 1 / 2) / (width : F), ((y : F) + 1 / 2) / (height : F)⟩ eye).y] := by
    rw [specLookupWrites, List.map_flatMap]
    apply List.flatMap_congr
    intro y _
    rw [List.map_flatMap]
    rfl
  unfold LookupData.buffer
  rw [createLookupTexture_writes_spec h eye width height hw hh]
  show (specLookupWrites h width height eye).foldlM storeFloat
    (List.replicate (lookupDataSize ⟨width, height⟩) none) = _
  rw [lookupDataSize_eq width height hlt, ← hval]
  have := foldlM_storeFloat_dense (specLookupWrites h width height eye) [] 0 (by
    rw [specLookupWrites_offsets, List.range_eq_range', List.length_nil, hlen]
    congr 1
    ring)
  rw [List.nil_append, Nat.add_zero, hlen, List.replicate_zero, List.append_nil,
    List.nil_append] at this
  exact this

/-- Under the identity coefficients, when the allocation size does not wrap, the
array holds the pixel centre of every texel. -/
theorem lookupBuffer_identity (h : RiftDistortionHelper F) (hK0 : h.K0 = 1)
    (hK1 : h.K1 = 0) (hK2 : h.K2 = 0) (hK3 : h.K3 = 0) (ha : h.eyeAspect ≠ 0)
    (eye : StereoEye) (width height : Nat) (hw1 : 1 ≤ width) (hh1 : 1 ≤ height)
    (hlt : width * height * 2 < UINT_MOD) :
    (createLookupTexture h ⟨width, height⟩ eye).buffer =
      some ((List.range height).flatMap fun y =>
        (List.range width).flatMap fun x =>
          [some (((x : F) + 1 / 2) / (width : F)), some (((y : F) + 1 / 2) / (height : F))]) := by
  rw [lookupBuffer_eq h eye width height hw1 hh1 hlt]
  simp only [getTextureLookupValue_identity h hK0 hK1 hK2 hK3 ha]

end Buffer

/-! ## Lemmas on the sample helpers -/

/-- One pass of the loop for `K = (2 ^ 30, 0, 0, 0)`, `rTarget = 1` and the
bracket `[0, 2 / 2 ^ j]` with `j < 30`: the midpoint `1 / 2 ^ j` gives
`rResult = 2 ^ (30 - j) ≥ 2`, so `max` becomes the midpoint. -/
theorem steep_step (j n : Nat) (hj : j < 30) :
    bisect steepHelper 1 (n + 1) 0 (2 / 2 ^ j) = bisect steepHelper 1 n 0 (2 / 2 ^ (j + 1)) := by
  have hmid : ((2 : ℚ) / 2 ^ j - 0) / 2 + 0 = 1 / 2 ^ j := by ring
  have hres : resultRadius steepHelper (1 / 2 ^ j) = 2 ^ 30 / 2 ^ j := by
    simp [resultRadius, getUndistortionScaleForRadiusSquared, steepHelper]
    ring
  have hpos : (0 : ℚ) < 2 ^ j := by positivity
  have hge : (2 : ℚ) ≤ 2 ^ 30 / 2 ^ j := by
    rw [le_div_iff₀ hpos, ← pow_succ']
    exact pow_le_pow_right₀ (by norm_num) (by omega)
  rw [bisect_succ, hmid, hres]
  have hnc : epsilonEqual ((2 : ℚ) ^ 30 / 2 ^ j) 1 tolerance = false := by
    simp only [epsilonEqual, tolerance, decide_eq_false_iff_not, abs_lt, not_and, not_lt]
    intro _
    linarith
  rw [hnc]
  simp only [Bool.false_eq_true, if_false, bisectStep, hmid, hres]
  rw [if_neg (by linarith)]
  dsimp only
  congr 1
  rw [pow_succ]
  field_simp

theorem steep_none (fuel : Nat) : ∀ j : Nat, j + fuel ≤ 30 →
    bisect steepHelper 1 fuel 0 (2 / 2 ^ j) = none := by
  induction fuel with
  | zero => intro j _; rfl
  | succ n ih =>
    intro j hj
    rw [steep_step j n (by omega)]
    exact ih (j + 1) (by omega)

theorem steep_some (fuel : Nat) : ∀ j : Nat, j + fuel = 30 →
    bisect steepHelper 1 (fuel + 1) 0 (2 / 2 ^ j) = some (1 / 2 ^ 30) := by
  induction fuel with
  | zero =>
    intro j hj
    have hj30 : j = 30 := by omega
    subst hj30
    norm_num [bisect, getUndistortionScaleForRadiusSquared, epsilonEqual, tolerance,
      steepHelper]
  | succ n ih =>
    intro j hj
    rw [steep_step j (n + 1) (by omega)]
    exact ih (j + 1) (by omega)

theorem quarter_no_root (rTarget : ℚ) (hr : 1 / 100 ≤ rTarget) :
    ∀ r : ℚ, 0 ≤ r → r ≤ 2 * rTarget →
      ¬ |r * getUndistortionScaleForRadiusSquared quarterHelper (r ^ 2) - rTarget|
        < 1 / 1000000 := by
  intro r _ hr2 hlt
  have hval : r * getUndistortionScaleForRadiusSquared quarterHelper (r ^ 2) = r / 4 := by
    simp [getUndistortionScaleForRadiusSquared, quarterHelper]
    ring
  rw [hval, abs_lt] at hlt
  linarith [hlt.1]

/-- The steep helper with `rTarget = 1`: the loop has not returned after 21 nor
after 30 passes and returns `1 / 2 ^ 30` at the 31st. -/
theorem steep_run :
    getDistortionScaleForRadius 21 steepHelper 1 = none ∧
    getDistortionScaleForRadius 30 steepHelper 1 = none ∧
    getDistortionScaleForRadius 31 steepHelper 1 = some (1 / 2 ^ 30) := by
  have e : (1 : ℚ) * 2 = 2 / 2 ^ 0 := by norm_num
  unfold getDistortionScaleForRadius
  rw [e]
  exact ⟨steep_none 21 0 (by omega), steep_none 30 0 (by omega),
    steep_some 30 0 (by omega)⟩

/-- The first 24 passes of the loop for the DK1 coefficients and `rTarget = 4`:
none of the midpoints passes the tolerance test. -/
theorem dk1_chain (n : Nat) :
    bisect dk1Helper 4 (n + 24) 0 8 =
      bisect dk1Helper 4 n (3129673 / 2097152) (1564837 / 1048576) := by
  rw [bisect_step_hi dk1Helper 4 _ 0 8 4 (by norm_num) (by
    norm_num [resultRadius, getUndistortionScaleForRadiusSquared, tolerance, dk1Helper])]
  rw [bisect_step_hi dk1Helper 4 _ 0 4 2 (by norm_num) (by
    norm_num [resultRadius, getUndistortionScaleForRadiusSquared, tolerance, dk1Helper])]
  rw [bisect_step_lo dk1Helper 4 _ 0 2 1 (by norm_num) (by
    norm_num [resultRadius, getUndistortionScaleForRadiusSquared, tolerance, dk1Helper])]
  rw [bisect_step_hi dk1Helper 4 _ 1 2 (3 / 2) (by norm_num) (by
    norm_num [resultRadius, getUndistortionScaleForRadiusSquared, tolerance, dk1Helper])]
  rw [bisect_step_lo dk1Helper 4 _ 1 (3 / 2) (5 / 4) (by norm_num) (by
    norm_num [resultRadius, getUndistortionScaleForRadiusSquared, tolerance, dk1Helper])]
  rw [bisect_step_lo dk1Helper 4 _ (5 / 4) (3 / 2) (11 / 8) (by norm_num) (by
    norm_num [resultRadius, getUndistortionScaleForRadiusSquared, tolerance, dk1Helper])]
  rw [bisect_step_lo dk1Helper 4 _ (11 / 8) (3 / 2) (23 / 16) (by norm_num) (by
    norm_num [resultRadius, getUndistortionScaleForRadiusSquared, tolerance, dk1Helper])]
  rw [bisect_step_lo dk1Helper 4 _ (23 / 16) (3 / 2) (47 / 32) (by norm_num) (by
    norm_num [resultRadius, getUndistortionScaleForRadiusSquared, tolerance, dk1Helper])]
  rw [bisect_step_lo dk1Helper 4 _ (47 / 32) (3 / 2) (95 / 64) (by norm_num) (by
    norm_num [resultRadius, getUndistortionScaleForRadiusSquared, tolerance, dk1Helper])]
  rw [bisect_step_lo dk1Helper 4 _ (95 / 64) (3 / 2) (191 / 128) (by norm_num) (by
    norm_num [resultRadius, getUndistortionScaleForRadiusSquared, tolerance, dk1Helper])]
  rw [bisect_step_hi dk1Helper 4 _ (191 / 128) (3 / 2) (383 / 256) (by norm_num) (by
    norm_num [resultRadius, getUndistortionScaleForRadiusSquared, tolerance, dk1Helper])]
  rw [bisect_step_hi dk1Helper 4 _ (191 / 128) (383 / 256) (765 / 512) (by norm_num) (by
    norm_num [resultRadius, getUndistortionScaleForRadiusSquared, tolerance, dk1Helper])]
  rw [bisect_step_hi dk1Helper 4 _ (191 / 128) (765 / 512) (1529 / 1024) (by norm_num) (by
    norm_num [resultRadius, getUndistortionScaleForRadiusSquared, tolerance, dk1Helper])]
  rw [bisect_step_hi dk1Helper 4 _ (191 / 128) (1529 / 1024) (3057 / 2048) (by norm_num) (by
    norm_num [resultRadius, getUndistortionScaleForRadiusSquared, tolerance, dk1Helper])]
  rw [bisect_step_hi dk1Helper 4 _ (191 / 128) (3057 / 2048) (6113 / 4096) (by norm_num) (by
    norm_num [resultRadius, getUndistortionScaleForRadiusSquared, tolerance, dk1Helper])]
  rw [bisect_step_lo dk1Helper 4 _ (191 / 128) (6113 / 4096) (12225 / 8192) (by norm_num) (by
    norm_num [resultRadius, getUndistortionScaleForRadiusSquared, tolerance, dk1Helper])]
  rw [bisect_step_hi dk1Helper 4 _ (12225 / 8192) (6113 / 4096) (24451 / 16384) (by norm_num) (by
    norm_num [resultRadius, getUndistortionScaleForRadiusSquared, tolerance, dk1Helper])]
  rw [bisect_step_lo dk1Helper 4 _ (12225 / 8192) (24451 / 16384) (48901 / 32768) (by norm_num) (by
    norm_num [resultRadius, getUndistortionScaleForRadiusSquared, tolerance, dk1Helper])]
  rw [bisect_step_hi dk1Helper 4 _ (48901 / 32768) (24451 / 16384) (97803 / 65536) (by norm_num) (by
    norm_num [resultRadius, getUndistortionScaleForRadiusSquared, tolerance, dk1Helper])]
  rw [bisect_step_hi dk1Helper 4 _ (48901 / 32768) (97803 / 65536) (195605 / 131072) (by norm_num) (by
    norm_num [resultRadius, getUndistortionScaleForRadiusSquared, tolerance, dk1Helper])]
  rw [bisect_step_lo dk1Helper 4 _ (48901 / 32768) (195605 / 131072) (391209 / 262144) (by norm_num) (by
    norm_num [resultRadius, getUndistortionScaleForRadiusSquared, tolerance, dk1Helper])]
  rw [bisect_step_hi dk1Helper 4 _ (391209 / 262144) (195605 / 131072) (782419 / 524288) (by norm_num) (by
    norm_num [resultRadius, getUndistortionScaleForRadiusSquared, tolerance, dk1Helper])]
  rw [bisect_step_hi dk1Helper 4 _ (391209 / 262144) (782419 / 524288) (1564837 / 1048576) (by norm_num) (by
    norm_num [resultRadius, getUndistortionScaleForRadiusSquared, tolerance, dk1Helper])]
  rw [bisect_step_lo dk1Helper 4 _ (391209 / 262144) (1564837 / 1048576) (3129673 / 2097152) (by norm_num) (by
    norm_num [resultRadius, getUndistortionScaleForRadiusSquared, tolerance, dk1Helper])]

/-- The DK1 coefficients with `rTarget = 4`: the loop has not returned after 23
nor after 24 passes. -/
theorem dk1_run :
    getDistortionScaleForRadius 23 dk1Helper 4 = none ∧
    getDistortionScaleForRadius 24 dk1Helper 4 = none := by
  have h24 : getDistortionScaleForRadius 24 dk1Helper 4 = none := by
    unfold getDistortionScaleForRadius
    rw [show (4 : ℚ) * 2 = 8 from by norm_num]
    exact dk1_chain 0
  refine ⟨?_, h24⟩
  cases h23 : getDistortionScaleForRadius 23 dk1Helper 4 with
  | none => rfl
  | some s =>
    have := bisect_mono dk1Helper 4 23 0 (4 * 2) s h23 1
    unfold getDistortionScaleForRadius at h24
    rw [h24] at this
    exact Option.noConfusion this

/-- The DK1 coefficients with `rTarget = 4`: the 25th midpoint passes the
tolerance test. -/
theorem dk1_returns : (getDistortionScaleForRadius 25 dk1Helper 4).isSome = true := by
  unfold getDistortionScaleForRadius
  rw [show (4 : ℚ) * 2 = 8 from by norm_num, dk1_chain 1, bisect_succ]
  have hc : epsilonEqual (resultRadius dk1Helper
      (((1564837 : ℚ) / 1048576 - 3129673 / 2097152) / 2 + 3129673 / 2097152)) 4 tolerance
      = true := by
    norm_num [epsilonEqual, resultRadius, getUndistortionScaleForRadiusSquared, tolerance,
      dk1Helper, abs_lt]
  rw [hc]
  rfl

/-! ## The claims -/

section Claims

variable {F : Type} [LinearOrderedField F]

/-- Claim C1: soundness of the bisection inverse. For every coefficient set and
every target radius `rTarget ≥ 0`, whenever `getDistortionScaleForRadius`
returns a value `s` (within any number `fuel` of iterations), there is a source
radius `rSource` with `0 ≤ rSource ≤ 2 * rTarget` and
`|rSource * forwardScale (rSource ^ 2) - rTarget| < 1e-6` such that
`s = 1 / forwardScale (rSource ^ 2)`. -/
theorem getDistortionScaleForRadius_sound (h : RiftDistortionHelper F) (rTarget : F)
    (fuel : Nat) (s : F) (hr : 0 ≤ rTarget)
    (hs : getDistortionScaleForRadius fuel h rTarget = some s) :
    ∃ rSource : F, 0 ≤ rSource ∧ rSource ≤ 2 * rTarget ∧
      |rSource * getUndistortionScaleForRadiusSquared h (rSource ^ 2) - rTarget|
        < 1 / 1000000 ∧
      s = 1 / getUndistortionScaleForRadiusSquared h (rSource ^ 2) :=
  bisect_sound h rTarget fuel 0 (rTarget * 2) s le_rfl (by linarith) (by linarith) hs

/-- Witness for C1: with `K = (4/3, 0, 0, 0)` and `rTarget = 1` the loop visits
the midpoints `1`, `1/2`, `3/4` and returns `3/4`. -/
theorem getDistortionScaleForRadius_sound_witness :
    (0 : ℚ) ≤ 1 ∧
    getDistortionScaleForRadius 3 linearHelper 1 = some (3 / 4) ∧
    ∃ rSource : ℚ, 0 ≤ rSource ∧ rSource ≤ 2 * 1 ∧
      |rSource * getUndistortionScaleForRadiusSquared linearHelper (rSource ^ 2) - 1|
        < 1 / 1000000 ∧
      (3 / 4 : ℚ) = 1 / getUndistortionScaleForRadiusSquared linearHelper (rSource ^ 2) :=
  have hs : getDistortionScaleForRadius 3 linearHelper 1 = some (3 / 4) := by
    norm_num [getDistortionScaleForRadius, bisect, getUndistortionScaleForRadiusSquared,
      epsilonEqual, tolerance, abs_lt, linearHelper]
  ⟨by norm_num, hs,
    getDistortionScaleForRadius_sound linearHelper 1 3 (3 / 4) (by norm_num) hs⟩

/-- Claim C2: identity distortion. With `K0 = 1`, `K1 = K2 = K3 = 0` and
`eyeAspect ≠ 0` (any `lensOffset`), the polynomial scale is the constant `1`,
the bisection returns `1` in its first iteration for every `rTarget ≥ 0`, and
`findDistortedVertexPosition p eye = p` for every screen point and both eyes. -/
theorem identity_distortion (h : RiftDistortionHelper F) (hK0 : h.K0 = 1) (hK1 : h.K1 = 0)
    (hK2 : h.K2 = 0) (hK3 : h.K3 = 0) (ha : h.eyeAspect ≠ 0) :
    (∀ rSq : F, getUndistortionScaleForRadiusSquared h rSq = 1) ∧
    (∀ r : F, getUndistortionScaleForRadius h r = 1) ∧
    (∀ (rTarget : F) (fuel : Nat), 0 ≤ rTarget →
      getDistortionScaleForRadius (fuel + 1) h rTarget = some 1) ∧
    (∀ (sqrt : F → F) (fuel : Nat) (p : DVec2 F) (eye : StereoEye),
      findDistortedVertexPosition sqrt (fuel + 1) h p eye = some p) :=
  ⟨scale_identity h hK0 hK1 hK2 hK3,
   fun r => scale_identity h hK0 hK1 hK2 hK3 (r * r),
   fun rTarget fuel _ => bisect_identity h hK0 hK1 hK2 hK3 rTarget fuel,
   fun sqrt fuel p eye => find_identity h hK0 hK1 hK2 hK3 ha sqrt fuel p eye⟩

/-- Witness for C2 at `identityHelper`, `rTarget = 3` and the point `(1/2, 1/3)`. -/
theorem identity_distortion_witness :
    identityHelper.K0 = 1 ∧ identityHelper.K1 = 0 ∧ identityHelper.K2 = 0 ∧
    identityHelper.K3 = 0 ∧ identityHelper.eyeAspect ≠ 0 ∧ (0 : ℚ) ≤ 3 ∧
    getUndistortionScaleForRadiusSquared identityHelper 7 = 1 ∧
    getDistortionScaleForRadius 1 identityHelper 3 = some 1 ∧
    findDistortedVertexPosition Rat.sqrt 1 identityHelper ⟨1 / 2, 1 / 3⟩ StereoEye.LEFT
      = some ⟨1 / 2, 1 / 3⟩ :=
  have ha : identityHelper.eyeAspect ≠ 0 := by norm_num [identityHelper]
  ⟨rfl, rfl, rfl, rfl, ha, by norm_num,
    (identity_distortion identityHelper rfl rfl rfl rfl ha).1 7,
    (identity_distortion identityHelper rfl rfl rfl rfl ha).2.2.1 3 0 (by norm_num),
    (identity_distortion identityHelper rfl rfl rfl rfl ha).2.2.2 Rat.sqrt 0
      ⟨1 / 2, 1 / 3⟩ StereoEye.LEFT⟩

/-- Claim C3: `textureToScreen` and `screenToTexture` are mutual inverses, with
`textureToScreen t = 2 t - 1` and `screenToTexture s = (s + 1) / 2`
componentwise, in exact arithmetic. -/
theorem texture_screen_inverse :
    (∀ t : DVec2 F, screenToTexture (textureToScreen t) = t) ∧
    (∀ s : DVec2 F, textureToScreen (screenToTexture s) = s) ∧
    (∀ t : DVec2 F, textureToScreen t = ⟨2 * t.x - 1, 2 * t.y - 1⟩) ∧
    (∀ s : DVec2 F, screenToTexture s = ⟨(s.x + 1) / 2, (s.y + 1) / 2⟩) := by
  refine ⟨screenToTexture_textureToScreen, textureToScreen_screenToTexture, ?_,
    fun _ => rfl⟩
  intro t
  simp only [textureToScreen, DVec2.mk.injEq]
  constructor <;> ring

/-- Claim C4: lens-space round trip. For `eyeAspect ≠ 0`, every point and both
eyes, `riftToScreen (screenToRift s eye) eye = s` and
`riftToTexture (textureToRift t eye) eye = t`, where `textureToRift` and
`riftToTexture` are the compositions `screenToRift ∘ textureToScreen` and
`screenToTexture ∘ riftToScreen`. -/
theorem rift_round_trip (h : RiftDistortionHelper F) (ha : h.eyeAspect ≠ 0) :
    (∀ (s : DVec2 F) (eye : StereoEye), riftToScreen h (screenToRift h s eye) eye = s) ∧
    (∀ (t : DVec2 F) (eye : StereoEye), riftToTexture h (textureToRift h t eye) eye = t) ∧
    (∀ (t : DVec2 F) (eye : StereoEye),
      textureToRift h t eye = screenToRift h (textureToScreen t) eye) ∧
    (∀ (l : DVec2 F) (eye : StereoEye),
      riftToTexture h l eye = screenToTexture (riftToScreen h l eye)) := by
  refine ⟨riftToScreen_screenToRift h ha, ?_, fun _ _ => rfl, fun _ _ => rfl⟩
  intro t eye
  simp only [riftToTexture, textureToRift, riftToScreen_screenToRift h ha]
  exact screenToTexture_textureToScreen t

/-- Witness for C4 at the DK1 helper and the points `(1/2, -1/3)`, `(1/4, 3/4)`. -/
theorem rift_round_trip_witness :
    dk1Helper.eyeAspect ≠ 0 ∧
    riftToScreen dk1Helper (screenToRift dk1Helper ⟨1 / 2, -1 / 3⟩ StereoEye.LEFT)
      StereoEye.LEFT = ⟨1 / 2, -1 / 3⟩ ∧
    riftToTexture dk1Helper (textureToRift dk1Helper ⟨1 / 4, 3 / 4⟩ StereoEye.RIGHT)
      StereoEye.RIGHT = ⟨1 / 4, 3 / 4⟩ :=
  have ha : dk1Helper.eyeAspect ≠ 0 := by norm_num [dk1Helper]
  ⟨ha, (rift_round_trip dk1Helper ha).1 _ _, (rift_round_trip dk1Helper ha).2.1 _ _⟩

/-- Claim C5: eye symmetry of the mesh path. For every coefficient set, every
`lensOffset`, `eyeAspect ≠ 0` and every screen point `(x, y)`: if
`findDistortedVertexPosition (x, y) LEFT` returns `(u, v)` then
`findDistortedVertexPosition (-x, y) RIGHT` returns `(-u, v)`, and the bisection
finishes (within `fuel` iterations) for one exactly when it does for the other. -/
theorem find_eye_symmetry (h : RiftDistortionHelper F) (_ha : h.eyeAspect ≠ 0)
    (sqrt : F → F) (fuel : Nat) (x y : F) :
    (∀ u v : F, findDistortedVertexPosition sqrt fuel h ⟨x, y⟩ StereoEye.LEFT = some ⟨u, v⟩ →
      findDistortedVertexPosition sqrt fuel h ⟨-x, y⟩ StereoEye.RIGHT = some ⟨-u, v⟩) ∧
    ((findDistortedVertexPosition sqrt fuel h ⟨x, y⟩ StereoEye.LEFT).isSome =
      (findDistortedVertexPosition sqrt fuel h ⟨-x, y⟩ StereoEye.RIGHT).isSome) := by
  rw [find_mirror h sqrt fuel x y]
  constructor
  · intro u v huv
    rw [huv]
    rfl
  · rw [Option.isSome_map']

/-- Witness for C5: with `K = (4/3, 0, 0, 0)`, `lensOffset = 1/10` and
`eyeAspect = 4/5`, the left eye maps `(7/10, 16/25)` to `(11/20, 12/25)` after
three bisection steps, and the right eye maps `(-7/10, 16/25)` to
`(-11/20, 12/25)`. -/
theorem find_eye_symmetry_witness :
    linearHelper.eyeAspect ≠ 0 ∧
    findDistortedVertexPosition Rat.sqrt 3 linearHelper ⟨7 / 10, 16 / 25⟩ StereoEye.LEFT
      = some ⟨11 / 20, 12 / 25⟩ ∧
    findDistortedVertexPosition Rat.sqrt 3 linearHelper ⟨-(7 / 10), 16 / 25⟩ StereoEye.RIGHT
      = some ⟨-(11 / 20), 12 / 25⟩ :=
  have ha : linearHelper.eyeAspect ≠ 0 := by norm_num [linearHelper]
  have hsqrt : Rat.sqrt 1 = 1 := by decide
  have hL : findDistortedVertexPosition Rat.sqrt 3 linearHelper ⟨7 / 10, 16 / 25⟩
      StereoEye.LEFT = some ⟨11 / 20, 12 / 25⟩ := by
    norm_num [findDistortedVertexPosition, screenToRift, riftToScreen, getLensOffset, length,
      getDistortionScaleForRadius, bisect, getUndistortionScaleForRadiusSquared,
      epsilonEqual, tolerance, abs_lt, linearHelper, hsqrt]
  ⟨ha, hL, (find_eye_symmetry linearHelper ha Rat.sqrt 3 (7 / 10) (16 / 25)).1 _ _ hL⟩

/-- Claim C6, evaluated on the code: lookup texture under identity distortion.
For the `4 × 4` texture of the identity coefficients the array that
`createLookupTexture` fills holds, in row-major order, the two channels
`(x + 0.5) / 4` and `(y + 0.5) / 4` of the pixel centre of every texel, as the
claim says. For the size `65536 × 65536` (`width * height * 2 = 2 ^ 33`) the
`unsigned int` size wraps to `0`, the array is `new float[0]`, and the first
store falls outside it: no array is produced. -/
theorem lookup_identity_underallocated :
    (createLookupTexture identityHelper ⟨4, 4⟩ StereoEye.LEFT).buffer =
      some ((List.range 4).flatMap fun y => (List.range 4).flatMap fun x =>
        [some (((x : ℚ) + 1 / 2) / ((4 : ℕ) : ℚ)), some (((y : ℚ) + 1 / 2) / ((4 : ℕ) : ℚ))]) ∧
    65536 * 65536 * 2 = 8589934592 ∧
    (createLookupTexture identityHelper ⟨65536, 65536⟩ StereoEye.LEFT).size = 0 ∧
    (createLookupTexture identityHelper ⟨65536, 65536⟩ StereoEye.LEFT).buffer = none := by
  refine ⟨lookupBuffer_identity identityHelper rfl rfl rfl rfl (by norm_num [identityHelper])
    StereoEye.LEFT 4 4 (by decide) (by decide) (by decide), by decide, ?_, ?_⟩
  · show lookupDataSize ⟨65536, 65536⟩ = 0
    decide
  · obtain ⟨rest, hrest⟩ := createLookupTexture_first_store identityHelper StereoEye.LEFT
      65535 65535
    have hsize : (createLookupTexture identityHelper ⟨65535 + 1, 65535 + 1⟩
        StereoEye.LEFT).size = 0 := by
      show lookupDataSize ⟨65536, 65536⟩ = 0
      decide
    exact buffer_none_of_first_store _ _ rest hrest (by rw [hsize]; exact Nat.not_lt_zero _)

/-- Claim C7: mesh vertices under identity distortion. With `K0 = 1`,
`K1 = K2 = K3 = 0` and `eyeAspect ≠ 0`, for every resolution with `columns ≥ 2`
and `rows ≥ 2` and both eyes, `createDistortionMesh` returns (one bisection
step per vertex suffices) and emits `columns * rows` vertices in row-major
order, the vertex of cell `(x, y)` having texture coordinate
`t = (x / (columns - 1), y / (rows - 1))` and position `2 t - 1`; for `2 × 2`
these are the positions `(-1,-1), (1,-1), (-1,1), (1,1)` with texture
coordinates `(0,0), (1,0), (0,1), (1,1)`. -/
theorem mesh_identity (h : RiftDistortionHelper F) (hK0 : h.K0 = 1) (hK1 : h.K1 = 0)
    (hK2 : h.K2 = 0) (hK3 : h.K3 = 0) (ha : h.eyeAspect ≠ 0) (sqrt : F → F) (fuel : Nat)
    (eye : StereoEye) :
    (∀ columns rows : Nat, 2 ≤ columns → 2 ≤ rows → columns < UINT_MOD → rows < UINT_MOD →
      ∃ g, createDistortionMesh sqrt (fuel + 1) h ⟨columns, rows⟩ eye = some g ∧
        g.vertexData = ((List.range rows).flatMap fun y =>
          (List.range columns).flatMap fun x =>
            [(⟨2 * ((x : F) / ((columns - 1 : ℕ) : F)) - 1,
              2 * ((y : F) / ((rows - 1 : ℕ) : F)) - 1, 0, 1⟩ : Vec4 F),
             ⟨(x : F) / ((columns - 1 : ℕ) : F), (y : F) / ((rows - 1 : ℕ) : F), 0, 1⟩]) ∧
        g.vertexData.length = 2 * (columns * rows)) ∧
    (∃ g, createDistortionMesh sqrt (fuel + 1) h ⟨2, 2⟩ eye = some g ∧
      g.vertexData =
        [⟨-1, -1, 0, 1⟩, ⟨0, 0, 0, 1⟩, ⟨1, -1, 0, 1⟩, ⟨1, 0, 0, 1⟩,
         ⟨-1, 1, 0, 1⟩, ⟨0, 1, 0, 1⟩, ⟨1, 1, 0, 1⟩, ⟨1, 1, 0, 1⟩]) := by
  constructor
  · intro columns rows hc hr hcu hru
    refine ⟨_, by rw [createDistortionMesh, meshVertexData_identity h hK0 hK1 hK2 hK3 ha
      sqrt fuel columns rows hc hr hcu hru eye], rfl, ?_⟩
    simp [List.length_flatMap, Function.comp_def]
    ring
  · refine ⟨_, by rw [createDistortionMesh, meshVertexData_identity h hK0 hK1 hK2 hK3 ha
      sqrt fuel 2 2 le_rfl le_rfl (by decide) (by decide) eye], ?_⟩
    simp [List.range_succ, List.flatMap_cons]
    norm_num

/-- Witness for C7: the `3 × 2` mesh of `identityHelper`, right eye. -/
theorem mesh_identity_witness :
    identityHelper.K0 = 1 ∧ identityHelper.K1 = 0 ∧ identityHelper.K2 = 0 ∧
    identityHelper.K3 = 0 ∧ identityHelper.eyeAspect ≠ 0 ∧ 2 ≤ 3 ∧ 2 ≤ 2 ∧
    3 < UINT_MOD ∧ 2 < UINT_MOD ∧
    ∃ g, createDistortionMesh Rat.sqrt 1 identityHelper ⟨3, 2⟩ StereoEye.RIGHT = some g ∧
      g.vertexData = ((List.range 2).flatMap fun y =>
        (List.range 3).flatMap fun x =>
          [(⟨2 * ((x : ℚ) / ((3 - 1 : ℕ) : ℚ)) - 1,
            2 * ((y : ℚ) / ((2 - 1 : ℕ) : ℚ)) - 1, 0, 1⟩ : Vec4 ℚ),
           ⟨(x : ℚ) / ((3 - 1 : ℕ) : ℚ), (y : ℚ) / ((2 - 1 : ℕ) : ℚ), 0, 1⟩]) ∧
      g.vertexData.length = 2 * (3 * 2) :=
  have ha : identityHelper.eyeAspect ≠ 0 := by norm_num [identityHelper]
  ⟨rfl, rfl, rfl, rfl, ha, by decide, by decide, by decide, by decide,
    (mesh_identity identityHelper rfl rfl rfl rfl ha Rat.sqrt 0 StereoEye.RIGHT).1 3 2
      (by decide) (by decide) (by decide) (by decide)⟩

/-- Counterexample to C8 as stated: for the resolution `4294967295 × 2` the index
`(0 + 1) * columns + 1 = 2 ^ 32` of the specification does not fit a `GLuint`;
the loop stores `0` in its place, so the index stream differs from the stated
one. -/
theorem meshIndexData_overflow :
    meshIndexData ⟨4294967295, 2⟩ ≠ specIndexData 4294967295 2 := by
  intro heq
  obtain ⟨a, b, R, h1⟩ := meshIndexData_third 4294967293
  obtain ⟨a', b', R', h2⟩ := specIndexData_third 4294967293
  have h3 : meshIndexData ⟨4294967293 + 2, 2⟩ = specIndexData (4294967293 + 2) 2 := heq
  rw [h1, h2] at h3
  have h4 := (List.cons.inj (List.cons.inj (List.cons.inj h3).2).2).1
  revert h4
  unfold SIZE_MOD UINT_MOD
  decide

/-- Claim C8, amended: mesh index sequence. For every resolution with
`columns ≥ 1`, `rows ≥ 1` and `columns * rows < 2 ^ 32`, the index stream built
by `createDistortionMesh` is the concatenation, for `y = 0 .. rows - 2`, of the
indices `(y + 1) * columns + x`, `y * columns + x` for `x = 0 .. columns - 1`
followed by one `UINT_MAX`; its length is `(rows - 1) * (2 * columns + 1)` and
`UINT_MAX` occurs exactly `rows - 1` times; for `2 × 2` it is
`[2, 0, 3, 1, UINT_MAX]`. -/
theorem meshIndexData_spec (columns rows : Nat) (hc : 1 ≤ columns) (hr : 1 ≤ rows)
    (hlt : columns * rows < UINT_MOD) :
    meshIndexData ⟨columns, rows⟩ = specIndexData columns rows ∧
    (meshIndexData ⟨columns, rows⟩).length = (rows - 1) * (2 * columns + 1) ∧
    (meshIndexData ⟨columns, rows⟩).count UINT_MAX = rows - 1 ∧
    (∀ (sqrt : F → F) (fuel : Nat) (h : RiftDistortionHelper F) (eye : StereoEye)
      (g : Geometry F), createDistortionMesh sqrt fuel h ⟨columns, rows⟩ eye = some g →
      g.indexData = specIndexData columns rows) ∧
    meshIndexData ⟨2, 2⟩ = [2, 0, 3, 1, UINT_MAX] := by
  have heq := meshIndexData_eq_spec columns rows hc hr hlt
  refine ⟨heq, ?_, ?_, ?_, by decide⟩
  · rw [heq, specIndexData_length]
  · rw [heq, specIndexData_count columns rows hlt]
  · intro sqrt fuel h eye g hg
    unfold createDistortionMesh at hg
    split at hg
    · exact Option.noConfusion hg
    · have hg2 := Option.some.inj hg
      rw [← hg2]
      dsimp only
      exact heq

/-- Witness for C8, amended: the `3 × 3` mesh of `identityHelper`. -/
theorem meshIndexData_spec_witness :
    1 ≤ 3 ∧ 3 * 3 < UINT_MOD ∧
    meshIndexData ⟨3, 3⟩ = [3, 0, 4, 1, 5, 2, UINT_MAX, 6, 3, 7, 4, 8, 5, UINT_MAX] ∧
    meshIndexData ⟨3, 3⟩ = specIndexData 3 3 ∧
    (meshIndexData ⟨3, 3⟩).length = (3 - 1) * (2 * 3 + 1) ∧
    (meshIndexData ⟨3, 3⟩).count UINT_MAX = 3 - 1 ∧
    (∀ g : Geometry ℚ,
      createDistortionMesh Rat.sqrt 1 identityHelper ⟨3, 3⟩ StereoEye.LEFT = some g →
      g.indexData = specIndexData 3 3) :=
  have hw := @meshIndexData_spec ℚ _ 3 3 (by decide) (by decide) (by decide)
  ⟨by decide, by decide, by decide, hw.1, hw.2.1, hw.2.2.1,
    hw.2.2.2.1 Rat.sqrt 1 identityHelper StereoEye.LEFT⟩

/-- Claim C9, evaluated on the code: lookup texture contents in general. For the
`2 × 2` texture of the DK1 coefficients the array that `createLookupTexture`
fills is row-major with two channels per texel, the pair at offsets
`2 * (y * width + x)` and `2 * (y * width + x) + 1` being
`getTextureLookupValue` at the pixel centre, the direct polynomial scale (no
bisection), as the claim says. For the sizes `65536 × 65536` and
`2147483648 × 2` the `unsigned int` products `width * height * 2` (and, for the
second, `rowSize = width * 2`) wrap to `0`, the array is `new float[0]`, and the
first store falls outside it: no array is produced. -/
theorem lookup_contents_underallocated :
    (createLookupTexture dk1Helper ⟨2, 2⟩ StereoEye.LEFT).buffer =
      some ((List.range 2).flatMap fun y => (List.range 2).flatMap fun x =>
        [some (getTextureLookupValue dk1Helper
            ⟨((x : ℚ) + 1 / 2) / ((2 : ℕ) : ℚ), ((y : ℚ) + 1 / 2) / ((2 : ℕ) : ℚ)⟩
            StereoEye.LEFT).x,
         some (getTextureLookupValue dk1Helper
            ⟨((x : ℚ) + 1 / 2) / ((2 : ℕ) : ℚ), ((y : ℚ) + 1 / 2) / ((2 : ℕ) : ℚ)⟩
            StereoEye.LEFT).y]) ∧
    getTextureLookupValue dk1Helper ⟨1 / 4, 1 / 4⟩ StereoEye.LEFT =
      riftToTexture dk1Helper
        (getUndistortedPosition dk1Helper (textureToRift dk1Helper ⟨1 / 4, 1 / 4⟩
          StereoEye.LEFT)) StereoEye.LEFT ∧
    getTextureLookupValue dk1Helper ⟨1 / 4, 1 / 4⟩ StereoEye.LEFT =
      ⟨179571361 / 1280000000, 21197797 / 128000000⟩ ∧
    (createLookupTexture dk1Helper ⟨65536, 65536⟩ StereoEye.RIGHT).size = 0 ∧
    (createLookupTexture dk1Helper ⟨65536, 65536⟩ StereoEye.RIGHT).buffer = none ∧
    (createLookupTexture dk1Helper ⟨2147483648, 2⟩ StereoEye.RIGHT).size = 0 ∧
    rowSize ⟨2147483648, 2⟩ = 0 ∧
    (createLookupTexture dk1Helper ⟨2147483648, 2⟩ StereoEye.RIGHT).buffer = none := by
  have hs1 : lookupDataSize ⟨65536, 65536⟩ = 0 := by decide
  have hs2 : lookupDataSize ⟨2147483648, 2⟩ = 0 := by decide
  refine ⟨lookupBuffer_eq dk1Helper StereoEye.LEFT 2 2 (by decide) (by decide) (by decide),
    rfl, ?_, hs1, ?_, hs2, by decide, ?_⟩
  · norm_num [getTextureLookupValue, riftToTexture, textureToRift, getUndistortedPosition,
      getUndistortionScale, getUndistortionScaleForRadiusSquared, length2, riftToScreen,
      screenToRift, screenToTexture, textureToScreen, getLensOffset, dk1Helper]
  · obtain ⟨rest, hrest⟩ := createLookupTexture_first_store dk1Helper StereoEye.RIGHT
      65535 65535
    have hsize : (createLookupTexture dk1Helper ⟨65535 + 1, 65535 + 1⟩
        StereoEye.RIGHT).size = 0 := hs1
    exact buffer_none_of_first_store _ _ rest hrest (by rw [hsize]; exact Nat.not_lt_zero _)
  · obtain ⟨rest, hrest⟩ := createLookupTexture_first_store dk1Helper StereoEye.RIGHT
      2147483647 1
    have hsize : (createLookupTexture dk1Helper ⟨2147483647 + 1, 1 + 1⟩
        StereoEye.RIGHT).size = 0 := hs2
    exact buffer_none_of_first_store _ _ rest hrest (by rw [hsize]; exact Nat.not_lt_zero _)

/-- Counterexample to C10 as stated: for the invalid sizes `0 × 0` and `0 × 1`
the generators signal nothing; `createLookupTexture` returns a buffer of length
`0` without any store and `createDistortionMesh` returns an empty geometry,
without running a single bisection step. -/
theorem no_rejection :
    (createLookupTexture identityHelper ⟨0, 0⟩ StereoEye.LEFT).size = 0 ∧
    (createLookupTexture identityHelper ⟨0, 0⟩ StereoEye.LEFT).writes = [] ∧
    ∃ g, createDistortionMesh Rat.sqrt 0 identityHelper ⟨0, 1⟩ StereoEye.LEFT = some g ∧
      g.vertexData = [] ∧ g.indexData = [] :=
  ⟨rfl, rfl, _, rfl, rfl, rfl⟩

/-- Claim C10, amended: the generators contain no resolution check and no
failure path. For every size with `width = 0` or `height = 0`,
`createLookupTexture` allocates a buffer of length `0`, stores nothing and
returns it; for every resolution with `columns = 0` and `rows ≥ 1`,
`createDistortionMesh` builds no vertex and returns a geometry whose index
stream consists of `rows - 1` restart sentinels. -/
theorem no_resolution_check (h : RiftDistortionHelper F) (eye : StereoEye) :
    (∀ size : UVec2, size.x = 0 ∨ size.y = 0 →
      (createLookupTexture h size eye).size = 0 ∧
      (createLookupTexture h size eye).writes = []) ∧
    (∀ (sqrt : F → F) (fuel : Nat) (rows : Nat), 1 ≤ rows → rows < UINT_MOD →
      ∃ g, createDistortionMesh sqrt fuel h ⟨0, rows⟩ eye = some g ∧ g.vertexData = [] ∧
        g.indexData = List.replicate (rows - 1) UINT_MAX) := by
  constructor
  · intro size hz
    constructor
    · show lookupDataSize size = 0
      unfold lookupDataSize
      rcases hz with hz | hz <;> rw [hz] <;> simp
    · rw [createLookupTexture_writes]
      rcases hz with hz | hz <;> rw [hz] <;> simp
  · intro sqrt fuel rows hr hru
    have hv : meshVertexData sqrt fuel h ⟨0, rows⟩ eye = some [] := by
      rw [meshVertexData_of_some sqrt fuel h ⟨0, rows⟩ eye (fun _ _ => [])]
      · simp
      · intro x y hx _
        exact absurd hx (Nat.not_lt_zero _)
    refine ⟨_, by rw [createDistortionMesh, hv], rfl, ?_⟩
    dsimp only
    rw [meshIndexData_eq]
    dsimp only
    rw [usub1_eq rows hr hru, List.range_zero]
    simp only [List.flatMap_nil, List.nil_append]
    generalize rows - 1 = n
    induction n with
    | zero => rfl
    | succ k ih =>
      rw [List.range_succ, List.flatMap_append, ih, List.flatMap_cons, List.flatMap_nil,
        List.append_nil, List.replicate_succ']

/-- Witness for C10, amended: the size `0 × 7` and the resolution `0 × 3`. -/
theorem no_resolution_check_witness :
    ((0 : Nat) = 0 ∨ (7 : Nat) = 0) ∧ 1 ≤ 3 ∧ 3 < UINT_MOD ∧
    ((createLookupTexture dk1Helper ⟨0, 7⟩ StereoEye.RIGHT).size = 0 ∧
      (createLookupTexture dk1Helper ⟨0, 7⟩ StereoEye.RIGHT).writes = []) ∧
    ∃ g, createDistortionMesh Rat.sqrt 0 dk1Helper ⟨0, 3⟩ StereoEye.RIGHT = some g ∧
      g.vertexData = [] ∧ g.indexData = List.replicate (3 - 1) UINT_MAX :=
  ⟨Or.inl rfl, by decide, by decide,
    (no_resolution_check dk1Helper StereoEye.RIGHT).1 ⟨0, 7⟩ (Or.inl rfl),
    (no_resolution_check dk1Helper StereoEye.RIGHT).2 Rat.sqrt 0 3 (by decide) (by decide)⟩

/-- Counterexample to C11 as stated: with `K = (1/4, 0, 0, 0)` and `rTarget = 1`
(the root `4` lies outside the bracket `[0, 2]`) the loop has not been left
after 1000 iterations, nor after any other number: there is no cap and no
failure signal. -/
theorem bisection_runs_forever :
    getDistortionScaleForRadius 1000 quarterHelper 1 = none ∧
    (∀ fuel : Nat, getDistortionScaleForRadius fuel quarterHelper 1 = none) :=
  ⟨bisect_none_of_no_root quarterHelper 1 (by norm_num) (quarter_no_root 1 (by norm_num)) 1000,
   bisect_none_of_no_root quarterHelper 1 (by norm_num) (quarter_no_root 1 (by norm_num))⟩

/-- Claim C11, amended: the bisection of `getDistortionScaleForRadius` is not
capped and has no failure path. The loop is left only through the tolerance
test: a run that has returned a value returns the same value when more
iterations are allowed, and for `rTarget ≥ 0` such that no radius of the
bracket `[0, 2 * rTarget]` passes the test `|rResult - rTarget| < 1e-6` (as
when the root lies outside the bracket) the loop is never left. -/
theorem bisection_uncapped (h : RiftDistortionHelper F) (rTarget : F) :
    (∀ (fuel : Nat) (s : F), getDistortionScaleForRadius fuel h rTarget = some s →
      ∀ k : Nat, getDistortionScaleForRadius (fuel + k) h rTarget = some s) ∧
    (0 ≤ rTarget →
      (∀ r : F, 0 ≤ r → r ≤ 2 * rTarget →
        ¬ |r * getUndistortionScaleForRadiusSquared h (r ^ 2) - rTarget| < 1 / 1000000) →
      ∀ fuel : Nat, getDistortionScaleForRadius fuel h rTarget = none) :=
  ⟨fun fuel s hs k => bisect_mono h rTarget fuel 0 (rTarget * 2) s hs k,
   fun hr hno fuel => bisect_none_of_no_root h rTarget hr hno fuel⟩

/-- Witness for C11, amended: `K = (4/3, 0, 0, 0)` with `rTarget = 1` returns
`3/4` after three passes and for any larger allowance; `K = (1/4, 0, 0, 0)`
with `rTarget = 2` never returns. -/
theorem bisection_uncapped_witness :
    getDistortionScaleForRadius 3 linearHelper 1 = some (3 / 4) ∧
    getDistortionScaleForRadius (3 + 1000) linearHelper 1 = some (3 / 4) ∧
    (0 : ℚ) ≤ 2 ∧
    (∀ r : ℚ, 0 ≤ r → r ≤ 2 * 2 →
      ¬ |r * getUndistortionScaleForRadiusSquared quarterHelper (r ^ 2) - 2| < 1 / 1000000) ∧
    ∀ fuel : Nat, getDistortionScaleForRadius fuel quarterHelper 2 = none :=
  have hs : getDistortionScaleForRadius 3 linearHelper 1 = some (3 / 4) := by
    norm_num [getDistortionScaleForRadius, bisect, getUndistortionScaleForRadiusSquared,
      epsilonEqual, tolerance, abs_lt, linearHelper]
  ⟨hs, (bisection_uncapped linearHelper 1).1 3 (3 / 4) hs 1000, by norm_num,
    quarter_no_root 2 (by norm_num),
    (bisection_uncapped quarterHelper 2).2 (by norm_num) (quarter_no_root 2 (by norm_num))⟩

/-- Claim C12: guaranteed convergence under the monotonic-scale precondition. For
`K0 ≥ 1/2`, `K1, K2, K3 ≥ 0` and `rTarget ≥ 0`, in an Archimedean ordered field
(such as the reals): `r * forwardScale (r ^ 2)` is increasing on `r ≥ 0`,
the loop of `getDistortionScaleForRadius` returns after finitely many
iterations, and the bracket `(min, max)` after `n` passes satisfies
`0 ≤ min ≤ max ≤ 2 * rTarget`,
`min * forwardScale (min ^ 2) ≤ rTarget ≤ max * forwardScale (max ^ 2)` and
`max - min = 2 * rTarget / 2 ^ n`, halving at every pass; as long as the loop
has not returned, it continues from that bracket. -/
theorem bisection_converges [Archimedean F] (h : RiftDistortionHelper F)
    (h0 : 1 / 2 ≤ h.K0) (h1 : 0 ≤ h.K1) (h2 : 0 ≤ h.K2) (h3 : 0 ≤ h.K3)
    (rTarget : F) (hr : 0 ≤ rTarget) :
    (∀ a b : F, 0 ≤ a → a < b →
      a * getUndistortionScaleForRadiusSquared h (a ^ 2) <
        b * getUndistortionScaleForRadiusSquared h (b ^ 2)) ∧
    (∃ (fuel : Nat) (s : F), getDistortionScaleForRadius fuel h rTarget = some s) ∧
    bracketAfter h rTarget 0 = (0, rTarget * 2) ∧
    (∀ n : Nat,
      0 ≤ (bracketAfter h rTarget n).1 ∧
      (bracketAfter h rTarget n).1 ≤ (bracketAfter h rTarget n).2 ∧
      (bracketAfter h rTarget n).2 ≤ 2 * rTarget ∧
      (bracketAfter h rTarget n).1 *
        getUndistortionScaleForRadiusSquared h ((bracketAfter h rTarget n).1 ^ 2) ≤ rTarget ∧
      rTarget ≤ (bracketAfter h rTarget n).2 *
        getUndistortionScaleForRadiusSquared h ((bracketAfter h rTarget n).2 ^ 2) ∧
      (bracketAfter h rTarget n).2 - (bracketAfter h rTarget n).1 = 2 * rTarget / 2 ^ n ∧
      (bracketAfter h rTarget (n + 1)).2 - (bracketAfter h rTarget (n + 1)).1 =
        ((bracketAfter h rTarget n).2 - (bracketAfter h rTarget n).1) / 2) ∧
    (∀ n k : Nat, getDistortionScaleForRadius n h rTarget = none →
      getDistortionScaleForRadius (n + k) h rTarget =
        bisect h rTarget k (bracketAfter h rTarget n).1 (bracketAfter h rTarget n).2) := by
  have hK0 : 0 < h.K0 := by linarith
  have hrr : ∀ r : F, r * getUndistortionScaleForRadiusSquared h (r ^ 2) = resultRadius h r := by
    intro r
    rw [resultRadius, pow_two, mul_comm]
  refine ⟨?_, ?_, rfl, ?_, ?_⟩
  · intro a b ha hab
    rw [hrr, hrr]
    exact resultRadius_strictMono h hK0 h1 h2 h3 a b ha hab
  · obtain ⟨n, hn⟩ := pow_unbounded_of_one_lt
      (slopeBound h (2 * rTarget) * (2 * rTarget) / tolerance) (by norm_num : (1 : F) < 2)
    have htol : (0 : F) < tolerance := by unfold tolerance; norm_num
    rw [div_lt_iff₀ htol] at hn
    have hinv := initial_inv h h0 h1 h2 h3 rTarget hr
    obtain ⟨s, hs⟩ := bisect_terminates h h1 h2 h3 rTarget (2 * rTarget) n (0, rTarget * 2)
      hinv (by
        dsimp only
        have h2n : (2 : F) ^ n ≤ 2 ^ (n + 1) := by
          rw [pow_succ]
          have : (0 : F) < 2 ^ n := by positivity
          linarith
        have := mul_le_mul_of_nonneg_right h2n (le_of_lt htol)
        rw [show rTarget * 2 - 0 = 2 * rTarget from by ring]
        linarith)
    exact ⟨n + 1, s, hs⟩
  · intro n
    obtain ⟨⟨i0, i1, i2, i3, i4⟩, hw⟩ := bracketAfter_inv h h0 h1 h2 h3 rTarget hr n
    refine ⟨i0, i1, i2, by rw [hrr]; exact i3, by rw [hrr]; exact i4, hw, ?_⟩
    unfold bracketAfter
    rw [Function.iterate_succ_apply', bisectStep_width]
  · intro n k hnone
    exact bisect_eq_bracket h rTarget n (0, rTarget * 2) hnone k

/-- Witness for C12: the DK1 coefficients with `rTarget = 1`. -/
theorem bisection_converges_witness :
    (1 / 2 : ℚ) ≤ dk1Helper.K0 ∧ 0 ≤ dk1Helper.K1 ∧ 0 ≤ dk1Helper.K2 ∧ 0 ≤ dk1Helper.K3 ∧
    (0 : ℚ) ≤ 1 ∧
    (∃ (fuel : Nat) (s : ℚ), getDistortionScaleForRadius fuel dk1Helper 1 = some s) ∧
    (bracketAfter dk1Helper 1 2).2 - (bracketAfter dk1Helper 1 2).1 = 2 * 1 / 2 ^ 2 :=
  have h0 : (1 / 2 : ℚ) ≤ dk1Helper.K0 := by norm_num [dk1Helper]
  have h1 : (0 : ℚ) ≤ dk1Helper.K1 := by norm_num [dk1Helper]
  have h2 : (0 : ℚ) ≤ dk1Helper.K2 := by norm_num [dk1Helper]
  have h3 : (0 : ℚ) ≤ dk1Helper.K3 := by norm_num [dk1Helper]
  ⟨h0, h1, h2, h3, by norm_num,
    (bisection_converges dk1Helper h0 h1 h2 h3 1 (by norm_num)).2.1,
    ((bisection_converges dk1Helper h0 h1 h2 h3 1 (by norm_num)).2.2.2.1 2).2.2.2.2.2.1⟩

/-- Claim C13: the polynomial scale. `getUndistortionScaleForRadiusSquared rSq` is
`K0 + K1 * rSq + K2 * rSq ^ 2 + K3 * rSq ^ 3`; `getUndistortionScaleForRadius r`
is its value at `rSq = r * r`, `getUndistortionScale v` its value at
`rSq = v.x ^ 2 + v.y ^ 2`, and `getUndistortedPosition v` is `v` times the
scale at `|v| ^ 2`, componentwise. -/
theorem scale_polynomial (h : RiftDistortionHelper F) :
    (∀ rSq : F, getUndistortionScaleForRadiusSquared h rSq =
      h.K0 + h.K1 * rSq + h.K2 * rSq ^ 2 + h.K3 * rSq ^ 3) ∧
    (∀ r : F, getUndistortionScaleForRadius h r =
      h.K0 + h.K1 * (r * r) + h.K2 * (r * r) ^ 2 + h.K3 * (r * r) ^ 3) ∧
    (∀ v : DVec2 F, getUndistortionScale h v =
      h.K0 + h.K1 * (v.x ^ 2 + v.y ^ 2) + h.K2 * (v.x ^ 2 + v.y ^ 2) ^ 2
        + h.K3 * (v.x ^ 2 + v.y ^ 2) ^ 3) ∧
    (∀ v : DVec2 F, getUndistortedPosition h v =
      ⟨v.x * getUndistortionScaleForRadiusSquared h (v.x ^ 2 + v.y ^ 2),
       v.y * getUndistortionScaleForRadiusSquared h (v.x ^ 2 + v.y ^ 2)⟩) := by
  refine ⟨?_, ?_, ?_, ?_⟩
  · intro rSq
    unfold getUndistortionScaleForRadiusSquared
    ring
  · intro r
    unfold getUndistortionScaleForRadius getUndistortionScaleForRadiusSquared
    ring
  · intro v
    unfold getUndistortionScale getUndistortionScaleForRadiusSquared length2
    ring
  · intro v
    unfold getUndistortedPosition getUndistortionScale length2
    rw [pow_two, pow_two]

/-- Claim C14: the lens offset sign. `getLensOffset LEFT = -lensOffset`,
`getLensOffset RIGHT = lensOffset`, hence `getLensOffset LEFT =
-getLensOffset RIGHT`; the eye enters `screenToRift` and `riftToScreen` only
through `getLensOffset` in the `x` component, and their `y` components are the
same for both eyes. -/
theorem lens_offset_sign (h : RiftDistortionHelper F) :
    getLensOffset h StereoEye.LEFT = -h.lensOffset ∧
    getLensOffset h StereoEye.RIGHT = h.lensOffset ∧
    getLensOffset h StereoEye.LEFT = -getLensOffset h StereoEye.RIGHT ∧
    (∀ (v : DVec2 F) (eye : StereoEye),
      screenToRift h v eye = ⟨v.x + getLensOffset h eye, v.y / h.eyeAspect⟩ ∧
      riftToScreen h v eye = ⟨v.x - getLensOffset h eye, v.y * h.eyeAspect⟩) ∧
    (∀ v : DVec2 F,
      (screenToRift h v StereoEye.LEFT).y = (screenToRift h v StereoEye.RIGHT).y ∧
      (riftToScreen h v StereoEye.LEFT).y = (riftToScreen h v StereoEye.RIGHT).y) := by
  refine ⟨?_, ?_, ?_, fun _ _ => ⟨rfl, rfl⟩, fun _ => ⟨rfl, rfl⟩⟩
  · simp [getLensOffset]
  · simp [getLensOffset]
  · simp [getLensOffset]

/-- Counterexample to C15 as stated: for the default DK1 coefficients
`K = (1, 0.22, 0.24, 0)` and `rTarget = rMax = 4`, where
`ceil (log2 (2 * rMax / 1e-6)) = 23` (`2 ^ 22 < 8 * 10 ^ 6 ≤ 2 ^ 23`), the loop
has not passed its tolerance test after 23 midpoints, nor after 24; it returns
at the 25th. For the accepted coefficient set `K = (2 ^ 30, 0, 0, 0)` and
`rTarget = rMax = 1`, where the stated bound is 21
(`2 ^ 20 < 2 * 10 ^ 6 ≤ 2 ^ 21`), it has not after 30 midpoints and returns at
the 31st. -/
theorem iteration_bound_exceeded :
    (1 / 2 : ℚ) ≤ dk1Helper.K0 ∧ 0 ≤ dk1Helper.K1 ∧ 0 ≤ dk1Helper.K2 ∧ 0 ≤ dk1Helper.K3 ∧
    (2 : ℚ) ^ 22 < 2 * 4 / (1 / 1000000) ∧ 2 * 4 / (1 / 1000000) ≤ (2 : ℚ) ^ 23 ∧
    getDistortionScaleForRadius 23 dk1Helper 4 = none ∧
    getDistortionScaleForRadius 24 dk1Helper 4 = none ∧
    (getDistortionScaleForRadius 25 dk1Helper 4).isSome = true ∧
    (1 / 2 : ℚ) ≤ steepHelper.K0 ∧ 0 ≤ steepHelper.K1 ∧ 0 ≤ steepHelper.K2 ∧
    0 ≤ steepHelper.K3 ∧
    (2 : ℚ) ^ 20 < 2 * 1 / (1 / 1000000) ∧ 2 * 1 / (1 / 1000000) ≤ (2 : ℚ) ^ 21 ∧
    getDistortionScaleForRadius 21 steepHelper 1 = none ∧
    getDistortionScaleForRadius 30 steepHelper 1 = none ∧
    getDistortionScaleForRadius 31 steepHelper 1 = some (1 / 2 ^ 30) := by
  refine ⟨?_, ?_, ?_, ?_, by norm_num, by norm_num, dk1_run.1, dk1_run.2, dk1_returns,
    ?_, ?_, ?_, ?_, by norm_num, by norm_num, steep_run⟩ <;>
    norm_num [steepHelper, dk1Helper]

/-- Claim C15, amended: iteration bound of the bisection. For every `rMax > 0`,
every `rTarget` in `[0, rMax]` and every accepted coefficient set (`K0 ≥ 1/2`,
`K1, K2, K3 ≥ 0`), the loop of `getDistortionScaleForRadius` evaluates at most
`N` midpoints before its tolerance test succeeds, for every `N ≥ 1` with
`2 * rMax * L / 1e-6 < 2 ^ N`, where
`L = K0 + 3 K1 (2 rMax)^2 + 5 K2 (2 rMax)^4 + 7 K3 (2 rMax)^6` bounds the slope
of `r * forwardScale (r ^ 2)` on the bracket. -/
theorem bisection_iteration_bound (h : RiftDistortionHelper F)
    (h0 : 1 / 2 ≤ h.K0) (h1 : 0 ≤ h.K1) (h2 : 0 ≤ h.K2) (h3 : 0 ≤ h.K3)
    (rMax rTarget : F) (_hmax : 0 < rMax) (hr0 : 0 ≤ rTarget) (hr : rTarget ≤ rMax)
    (N : Nat) (hN : 1 ≤ N)
    (hb : 2 * rMax * slopeBound h (2 * rMax) / (1 / 1000000) < 2 ^ N) :
    ∃ s : F, getDistortionScaleForRadius N h rTarget = some s ∧
      ∀ k : Nat, getDistortionScaleForRadius (N + k) h rTarget = some s := by
  obtain ⟨n, rfl⟩ : ∃ n, N = n + 1 := ⟨N - 1, by omega⟩
  have htol : (0 : F) < 1 / 1000000 := by norm_num
  rw [div_lt_iff₀ htol] at hb
  have hK0 : 0 ≤ h.K0 := by linarith
  have hS : slopeBound h (2 * rTarget) ≤ slopeBound h (2 * rMax) :=
    slopeBound_mono h h1 h2 h3 _ _ (by linarith) (by linarith)
  have hSpos : 0 ≤ slopeBound h (2 * rTarget) := by
    unfold slopeBound
    have hR : 0 ≤ 2 * rTarget := by linarith
    have e2 := mul_nonneg (mul_nonneg (by norm_num : (0 : F) ≤ 3) h1) (pow_nonneg hR 2)
    have e4 := mul_nonneg (mul_nonneg (by norm_num : (0 : F) ≤ 5) h2) (pow_nonneg hR 4)
    have e6 := mul_nonneg (mul_nonneg (by norm_num : (0 : F) ≤ 7) h3) (pow_nonneg hR 6)
    linarith
  have hprod : slopeBound h (2 * rTarget) * (2 * rTarget) ≤
      2 * rMax * slopeBound h (2 * rMax) := by
    have := mul_le_mul hS (by linarith : 2 * rTarget ≤ 2 * rMax) (by linarith)
      (le_trans hSpos hS)
    linarith
  obtain ⟨s, hs⟩ := bisect_terminates h h1 h2 h3 rTarget (2 * rTarget) n (0, rTarget * 2)
    (initial_inv h h0 h1 h2 h3 rTarget hr0) (by
      dsimp only
      rw [show rTarget * 2 - 0 = 2 * rTarget from by ring]
      unfold tolerance
      linarith)
  exact ⟨s, hs, fun k => bisect_mono h rTarget (n + 1) 0 (rTarget * 2) s hs k⟩

/-- Witness for C15, amended: the DK1 coefficients with `rMax = 1` and
`rTarget = 1/2`; the slope bound is `L = 1 + 3 * 0.22 * 4 + 5 * 0.24 * 16 = 22.84`
and `2 * L * 10 ^ 6 < 2 ^ 26`. -/
theorem bisection_iteration_bound_witness :
    (1 / 2 : ℚ) ≤ dk1Helper.K0 ∧ 0 ≤ dk1Helper.K1 ∧ 0 ≤ dk1Helper.K2 ∧ 0 ≤ dk1Helper.K3 ∧
    (0 : ℚ) < 1 ∧ (0 : ℚ) ≤ 1 / 2 ∧ (1 / 2 : ℚ) ≤ 1 ∧ 1 ≤ 26 ∧
    slopeBound dk1Helper (2 * 1) = 2284 / 100 ∧
    2 * 1 * slopeBound dk1Helper (2 * 1) / (1 / 1000000) < (2 : ℚ) ^ 26 ∧
    ∃ s : ℚ, getDistortionScaleForRadius 26 dk1Helper (1 / 2) = some s ∧
      ∀ k : Nat, getDistortionScaleForRadius (26 + k) dk1Helper (1 / 2) = some s :=
  have h0 : (1 / 2 : ℚ) ≤ dk1Helper.K0 := by norm_num [dk1Helper]
  have h1 : (0 : ℚ) ≤ dk1Helper.K1 := by norm_num [dk1Helper]
  have h2 : (0 : ℚ) ≤ dk1Helper.K2 := by norm_num [dk1Helper]
  have h3 : (0 : ℚ) ≤ dk1Helper.K3 := by norm_num [dk1Helper]
  have hL : slopeBound dk1Helper (2 * 1) = 2284 / 100 := by
    norm_num [slopeBound, dk1Helper]
  have hb : 2 * 1 * slopeBound dk1Helper (2 * 1) / (1 / 1000000) < (2 : ℚ) ^ 26 := by
    rw [hL]
    norm_num
  ⟨h0, h1, h2, h3, by norm_num, by norm_num, by norm_num, by decide, hL, hb,
    bisection_iteration_bound dk1Helper h0 h1 h2 h3 1 (1 / 2) (by norm_num) (by norm_num)
      (by norm_num) 26 (by decide) hb⟩

/-- Claim C16: monotone forward scale. Whenever `K1, K2, K3 ≥ 0`,
`getUndistortionScaleForRadius r1 ≤ getUndistortionScaleForRadius r2` for all
`0 ≤ r1 ≤ r2`; in particular for the default DK1 coefficients
`(1, 0.22, 0.24, 0)` multiplied by a positive post-distortion scale `p` as the
constructor does (distortion scale `1 / p`), where `K = (p, 0.22 p, 0.24 p, 0)`. -/
theorem scale_monotone :
    (∀ (h : RiftDistortionHelper F), 0 ≤ h.K1 → 0 ≤ h.K2 → 0 ≤ h.K3 →
      ∀ r1 r2 : F, 0 ≤ r1 → r1 ≤ r2 →
        getUndistortionScaleForRadius h r1 ≤ getUndistortionScaleForRadius h r2) ∧
    (∀ p xCenterOffset : F, 0 < p →
      (defaultDk1Helper (1 / p) xCenterOffset).K0 = p ∧
      (defaultDk1Helper (1 / p) xCenterOffset).K1 = 22 / 100 * p ∧
      (defaultDk1Helper (1 / p) xCenterOffset).K2 = 24 / 100 * p ∧
      (defaultDk1Helper (1 / p) xCenterOffset).K3 = 0 ∧
      ∀ r1 r2 : F, 0 ≤ r1 → r1 ≤ r2 →
        getUndistortionScaleForRadius (defaultDk1Helper (1 / p) xCenterOffset) r1 ≤
          getUndistortionScaleForRadius (defaultDk1Helper (1 / p) xCenterOffset) r2) := by
  have hgen : ∀ (h : RiftDistortionHelper F), 0 ≤ h.K1 → 0 ≤ h.K2 → 0 ≤ h.K3 →
      ∀ r1 r2 : F, 0 ≤ r1 → r1 ≤ r2 →
        getUndistortionScaleForRadius h r1 ≤ getUndistortionScaleForRadius h r2 := by
    intro h h1 h2 h3 r1 r2 hr1 hr12
    unfold getUndistortionScaleForRadius
    exact scale_mono h h1 h2 h3 _ _ (mul_nonneg hr1 hr1)
      (mul_le_mul hr12 hr12 hr1 (le_trans hr1 hr12))
  refine ⟨hgen, ?_⟩
  intro p c hp
  have hK0 : (defaultDk1Helper (1 / p) c).K0 = p := by
    simp [defaultDk1Helper, mkRiftDistortionHelper]
  have hK1 : (defaultDk1Helper (1 / p) c).K1 = 22 / 100 * p := by
    simp [defaultDk1Helper, mkRiftDistortionHelper]
  have hK2 : (defaultDk1Helper (1 / p) c).K2 = 24 / 100 * p := by
    simp [defaultDk1Helper, mkRiftDistortionHelper]
  have hK3 : (defaultDk1Helper (1 / p) c).K3 = 0 := by
    simp [defaultDk1Helper, mkRiftDistortionHelper]
  refine ⟨hK0, hK1, hK2, hK3, hgen _ ?_ ?_ ?_⟩
  · rw [hK1]; positivity
  · rw [hK2]; positivity
  · rw [hK3]

/-- Witness for C16: the DK1 helper at the radii `1/2 ≤ 1`, and the default
helper for the post-distortion scale `p = 10/17`. -/
theorem scale_monotone_witness :
    (0 : ℚ) ≤ dk1Helper.K1 ∧ 0 ≤ dk1Helper.K2 ∧ 0 ≤ dk1Helper.K3 ∧
    (0 : ℚ) ≤ 1 / 2 ∧ (1 / 2 : ℚ) ≤ 1 ∧ (0 : ℚ) < 10 / 17 ∧
    getUndistortionScaleForRadius dk1Helper (1 / 2) = 107 / 100 ∧
    getUndistortionScaleForRadius dk1Helper 1 = 146 / 100 ∧
    getUndistortionScaleForRadius dk1Helper (1 / 2) ≤
      getUndistortionScaleForRadius dk1Helper 1 ∧
    (defaultDk1Helper (1 / (10 / 17)) (3 / 20) : RiftDistortionHelper ℚ).K1 =
      22 / 100 * (10 / 17) ∧
    getUndistortionScaleForRadius
        (defaultDk1Helper (1 / (10 / 17)) (3 / 20) : RiftDistortionHelper ℚ) (1 / 2) ≤
      getUndistortionScaleForRadius
        (defaultDk1Helper (1 / (10 / 17)) (3 / 20) : RiftDistortionHelper ℚ) 1 :=
  have h1 : (0 : ℚ) ≤ dk1Helper.K1 := by norm_num [dk1Helper]
  have h2 : (0 : ℚ) ≤ dk1Helper.K2 := by norm_num [dk1Helper]
  have h3 : (0 : ℚ) ≤ dk1Helper.K3 := by norm_num [dk1Helper]
  ⟨h1, h2, h3, by norm_num, by norm_num, by norm_num,
    by norm_num [getUndistortionScaleForRadius, getUndistortionScaleForRadiusSquared,
      dk1Helper],
    by norm_num [getUndistortionScaleForRadius, getUndistortionScaleForRadiusSquared,
      dk1Helper],
    (@scale_monotone ℚ _).1 dk1Helper h1 h2 h3 (1 / 2) 1 (by norm_num) (by norm_num),
    ((@scale_monotone ℚ _).2 (10 / 17) (3 / 20) (by norm_num)).2.1,
    ((@scale_monotone ℚ _).2 (10 / 17) (3 / 20) (by norm_num)).2.2.2.2 (1 / 2) 1
      (by norm_num) (by norm_num)⟩

/-- Claim C17: the restart sentinel is out of range and every other index is in
range. For every resolution with `columns ≥ 1`, `rows ≥ 1` and
`columns * rows < 2 ^ 32 - 1`: every entry of the index stream of
`createDistortionMesh` other than `UINT_MAX` is below `columns * rows`, the
number of emitted vertices (a returned mesh has two `vec4` per vertex), no
vertex index equals `UINT_MAX`, and `UINT_MAX` occurs only as the terminator of
the `rows - 1` strips. -/
theorem sentinel_out_of_range (columns rows : Nat) (hc : 1 ≤ columns) (hr : 1 ≤ rows)
    (hlt : columns * rows < UINT_MAX) :
    (∀ i ∈ meshIndexData ⟨columns, rows⟩, i ≠ UINT_MAX → i < columns * rows) ∧
    (∀ i : Nat, i < columns * rows → i ≠ UINT_MAX) ∧
    (meshIndexData ⟨columns, rows⟩).count UINT_MAX = rows - 1 ∧
    (∀ (sqrt : F → F) (fuel : Nat) (h : RiftDistortionHelper F) (eye : StereoEye)
      (g : Geometry F), createDistortionMesh sqrt fuel h ⟨columns, rows⟩ eye = some g →
      g.vertexData.length = 2 * (columns * rows) ∧
      ∀ i ∈ g.indexData, i ≠ UINT_MAX → 2 * i + 1 < g.vertexData.length) := by
  have hlt2 : columns * rows < UINT_MOD := by
    unfold UINT_MAX at hlt
    unfold UINT_MOD
    omega
  have heq := meshIndexData_eq_spec columns rows hc hr hlt2
  have hmem : ∀ i ∈ meshIndexData ⟨columns, rows⟩, i ≠ UINT_MAX → i < columns * rows := by
    intro i hi hne
    rw [heq] at hi
    rcases specIndexData_mem columns rows i hi with h1 | h1
    · exact absurd h1 hne
    · exact h1
  refine ⟨hmem, fun i hi => by omega, by rw [heq, specIndexData_count columns rows hlt2], ?_⟩
  intro sqrt fuel h eye g hg
  unfold createDistortionMesh at hg
  split at hg
  · exact Option.noConfusion hg
  · rename_i vs hvs
    have hg2 := Option.some.inj hg
    rw [← hg2]
    dsimp only
    have hlen := meshVertexData_length sqrt fuel h ⟨columns, rows⟩ eye vs hvs
    dsimp only at hlen
    refine ⟨hlen, ?_⟩
    intro i hi hne
    have := hmem i hi hne
    omega

/-- Witness for C17: the `3 × 3` mesh of `identityHelper`. -/
theorem sentinel_out_of_range_witness :
    1 ≤ 3 ∧ 3 * 3 < UINT_MAX ∧
    (∀ i ∈ meshIndexData ⟨3, 3⟩, i ≠ UINT_MAX → i < 3 * 3) ∧
    (meshIndexData ⟨3, 3⟩).count UINT_MAX = 3 - 1 ∧
    (∀ g : Geometry ℚ,
      createDistortionMesh Rat.sqrt 1 identityHelper ⟨3, 3⟩ StereoEye.LEFT = some g →
      g.vertexData.length = 2 * (3 * 3) ∧
      ∀ i ∈ g.indexData, i ≠ UINT_MAX → 2 * i + 1 < g.vertexData.length) :=
  have hw := @sentinel_out_of_range ℚ _ 3 3 (by decide) (by decide) (by decide)
  ⟨by decide, by decide, hw.1, hw.2.2.1, hw.2.2.2 Rat.sqrt 1 identityHelper StereoEye.LEFT⟩

/-- Evaluation for C18 at the failing input `65536 × 65536`: the `unsigned int`
product `65536 * 65536 * 2` wraps to `0`, so `createLookupTexture` allocates
`new float[0]` although `width * height * 2 = 2 ^ 33`, and already the store
for texel `(0, 0)`, at offset `0`, lies outside the buffer. -/
theorem lookup_size_overflow :
    lookupDataSize ⟨65536, 65536⟩ = 0 ∧
    (createLookupTexture identityHelper ⟨65536, 65536⟩ StereoEye.LEFT).size = 0 ∧
    65536 * 65536 * 2 = 8589934592 ∧
    texelOffset ⟨65536, 65536⟩ 0 0 = 0 ∧
    ∃ p ∈ (createLookupTexture identityHelper ⟨65536, 65536⟩ StereoEye.LEFT).writes,
      ¬ p.1 < (createLookupTexture identityHelper ⟨65536, 65536⟩ StereoEye.LEFT).size := by
  have hsize : lookupDataSize ⟨65536, 65536⟩ = 0 := by decide
  have hoff : texelOffset ⟨65536, 65536⟩ 0 0 = 0 := by decide
  refine ⟨hsize, hsize, by decide, hoff, ?_⟩
  rw [createLookupTexture_writes]
  refine ⟨(texelOffset ⟨65536, 65536⟩ 0 0,
    (getTextureLookupValue identityHelper (texelTexCoord ⟨65536, 65536⟩ 0 0)
      StereoEye.LEFT).x), ?_, ?_⟩
  · refine List.mem_flatMap.2 ⟨0, List.mem_range.2 (by decide), ?_⟩
    refine List.mem_flatMap.2 ⟨0, List.mem_range.2 (by decide), ?_⟩
    rw [lookupTexel_eq]
    exact List.mem_cons_self _ _
  · show ¬ texelOffset ⟨65536, 65536⟩ 0 0 < lookupDataSize ⟨65536, 65536⟩
    rw [hsize]
    exact Nat.not_lt_zero _

/-- Claim C20: the lens centre is a fixed point. For every coefficient set
`getDistortionScaleForRadius 0` returns `1 / K0` in its first iteration (bracket
`[0, 0]`); hence for `K0 ≠ 0` and `eyeAspect ≠ 0` (and a square root with
`sqrt 0 = 0`), `findDistortedVertexPosition` maps the screen point
`(-getLensOffset eye, 0)` to itself for both eyes, and `getTextureLookupValue`
maps its texture coordinate `((1 - getLensOffset eye) / 2, 1/2)` to itself. -/
theorem lens_centre_fixed (h : RiftDistortionHelper F) :
    (∀ fuel : Nat, getDistortionScaleForRadius (fuel + 1) h 0 = some (1 / h.K0)) ∧
    (h.K0 ≠ 0 → h.eyeAspect ≠ 0 →
      (∀ (sqrt : F → F), sqrt 0 = 0 → ∀ (fuel : Nat) (eye : StereoEye),
        findDistortedVertexPosition sqrt (fuel + 1) h ⟨-getLensOffset h eye, 0⟩ eye =
          some ⟨-getLensOffset h eye, 0⟩) ∧
      (∀ eye : StereoEye,
        textureToScreen ⟨(1 - getLensOffset h eye) / 2, 1 / 2⟩ =
          (⟨-getLensOffset h eye, 0⟩ : DVec2 F) ∧
        getTextureLookupValue h ⟨(1 - getLensOffset h eye) / 2, 1 / 2⟩ eye =
          ⟨(1 - getLensOffset h eye) / 2, 1 / 2⟩)) := by
  refine ⟨bisect_zero h, fun _ _ => ⟨fun sqrt hsqrt fuel eye =>
    find_centre h sqrt hsqrt fuel eye, fun eye => ⟨?_, lookup_centre h eye⟩⟩⟩
  simp only [textureToScreen, DVec2.mk.injEq]
  constructor <;> ring

/-- Witness for C20: the DK1 helper, left eye (`getLensOffset = -3/20`). -/
theorem lens_centre_fixed_witness :
    dk1Helper.K0 ≠ 0 ∧ dk1Helper.eyeAspect ≠ 0 ∧ Rat.sqrt 0 = 0 ∧
    getDistortionScaleForRadius 1 dk1Helper 0 = some (1 / dk1Helper.K0) ∧
    findDistortedVertexPosition Rat.sqrt 1 dk1Helper
        ⟨-getLensOffset dk1Helper StereoEye.LEFT, 0⟩ StereoEye.LEFT =
      some ⟨-getLensOffset dk1Helper StereoEye.LEFT, 0⟩ ∧
    getTextureLookupValue dk1Helper ⟨(1 - getLensOffset dk1Helper StereoEye.LEFT) / 2, 1 / 2⟩
        StereoEye.LEFT =
      ⟨(1 - getLensOffset dk1Helper StereoEye.LEFT) / 2, 1 / 2⟩ :=
  have hk : dk1Helper.K0 ≠ 0 := by norm_num [dk1Helper]
  have ha : dk1Helper.eyeAspect ≠ 0 := by norm_num [dk1Helper]
  have hs : Rat.sqrt 0 = 0 := by decide
  ⟨hk, ha, hs, (lens_centre_fixed dk1Helper).1 0,
    ((lens_centre_fixed dk1Helper).2 hk ha).1 Rat.sqrt hs 0 StereoEye.LEFT,
    (((lens_centre_fixed dk1Helper).2 hk ha).2 StereoEye.LEFT).2⟩

end Claims

end Rift
